import Mathlib

/-!
# Green Pulse: the energy dispatch and accounting engine of `static/app.js`

A shallow embedding of the class `EnergyManagementSystem` of `src/static/app.js`.

* JavaScript numbers are modelled as exact rationals (`ℚ`): rounding of IEEE doubles, `NaN`
  and the infinities are outside the model.  On numbers `x || 0` is `x`, and `!x` is `x = 0`.
* The object `this.state`, the browser's `localStorage` and the one DOM input the engine
  reads (`#gridRate`) are explicit records that every method receives and returns.
* Writes to the DOM, `console.log` and the chart rendering are not modelled: no modelled
  function reads them back.  Every element the methods write to is taken to be present, so
  that no `try` block is left early.
-/

namespace GreenPulse

/-- The four series of `this.state.history`. -/
structure History where
  solar : List ℚ
  wind : List ℚ
  grid : List ℚ
  battery : List ℚ
  deriving DecidableEq

/-- The fields of `this.state` (constructor, lines 4-36) that the engine reads or writes. -/
structure State where
  solar : ℚ
  wind : ℚ
  battery : ℚ
  grid : ℚ
  gridImport : ℚ
  gridExport : ℚ
  totalGeneration : ℚ
  load : ℚ
  demand : ℚ
  batteryPriority : ℚ
  reserve : ℚ
  exportDemand : ℚ
  dataPoints : ℕ
  history : History
  co2ReducedTotal : ℚ
  costSavingsTotal : ℚ
  gridImportAmount : ℚ
  gridImportCostTotal : ℚ
  gridExportTotal : ℚ
  gridExportIncome : ℚ
  deriving DecidableEq

/-- The keys of `localStorage` that hold ledger counters; `none` is an absent (or empty) item. -/
structure LocalStorage where
  co2ReducedTotal : Option ℚ
  costSavingsTotal : Option ℚ
  gridImportCostTotal : Option ℚ
  gridExportTotal : Option ℚ
  gridExportIncome : Option ℚ
  deriving DecidableEq

/-- The running page: the `ems` object's state, `localStorage`, the value of the `#gridRate`
input (`none` when the element is missing or its value is the empty string), and the number
last written to the `#totalNetIncome` element (before `toFixed`). -/
structure EnergyManagementSystem where
  state : State
  localStorage : LocalStorage
  gridRateInput : Option ℚ
  totalNetIncome : ℚ
  deriving DecidableEq

/-- The `predictions` argument of `updateFromBackend`, after `parseFloat(..) || 0`. -/
structure Predictions where
  solar_gen : ℚ
  wind_gen : ℚ
  demand_forecast : ℚ
  deriving DecidableEq

/-- JavaScript `a || b` on numbers: `a` when it is truthy (non-zero), else `b`. -/
def jsOr (a b : ℚ) : ℚ := if a ≠ 0 then a else b

/-- The constant `batteryCapacityPerPercent` (line 65): kWh per 1 % of charge. -/
def batteryCapacityPerPercent : ℚ := 500

/-- STEP 1 of `updateFromBackend` (lines 67-80): charge the battery from the grid-import
slider, independently of the energy balance. -/
def chargeFromGrid (s : State) : State :=
  let gridImportForBattery := jsOr s.gridImportAmount 0
  if gridImportForBattery > 0 ∧ s.battery < 100 then
    let batteryChargeFromGridPercent := gridImportForBattery / batteryCapacityPerPercent
    { s with battery := min 100 (s.battery + batteryChargeFromGridPercent) }
  else s

/-- The deficit branch of `updateFromBackend` (lines 85-131), entered when `balance < 0`. -/
def deficitCase (s : State) (balance : ℚ) : State :=
  let deficit := -balance
  -- CONTINUOUS EXPORT (lines 90-105)
  let exportFromBattery : ℚ :=
    if s.exportDemand > 0 ∧ s.battery > s.reserve then
      let batteryAboveReserve := s.battery - s.reserve
      let maxExportFromBattery := batteryAboveReserve * batteryCapacityPerPercent
      min s.exportDemand maxExportFromBattery
    else 0
  let s1 : State := { s with gridExport := exportFromBattery }
  -- Battery discharge for site load (lines 107-120)
  let s2 : State :=
    if s1.battery > s1.reserve then
      let batteryDrainKW := deficit * (s1.batteryPriority / 100)
      let totalBatteryDrain := batteryDrainKW + exportFromBattery
      let batteryDrainPercent := totalBatteryDrain / batteryCapacityPerPercent
      { s1 with battery := max s1.reserve (s1.battery - batteryDrainPercent) }
    else s1
  -- Grid import (lines 122-131): the test reads the battery as the discharge left it
  if s2.battery > s2.reserve then
    { s2 with gridImport := deficit * ((100 - s2.batteryPriority) / 100) }
  else
    { s2 with gridImport := deficit }

/-- The surplus branch of `updateFromBackend` (lines 134-216), entered when `balance ≥ 0`. -/
def surplusCase (s : State) (balance : ℚ) : State :=
  let surplus := balance
  let s1 : State :=
    if s.exportDemand > 0 then
      let canExportFromBattery : Bool := decide (s.battery > s.reserve)
      if !canExportFromBattery then
        -- export stopped, all surplus charges the battery (lines 145-155)
        let s0 : State := { s with gridExport := 0 }
        if s0.battery < 100 then
          let batteryRechargePercent := surplus / batteryCapacityPerPercent
          { s0 with battery := min 100 (s0.battery + batteryRechargePercent) }
        else s0
      else
        let batteryAboveReserve := s.battery - s.reserve
        let maxExportFromBattery := batteryAboveReserve * batteryCapacityPerPercent
        let exportAmount := s.exportDemand
        if surplus ≥ exportAmount then
          -- surplus covers the full export demand (lines 165-177)
          let s0 : State := { s with gridExport := exportAmount }
          let remainingSurplus := surplus - exportAmount
          if remainingSurplus > 0 ∧ s0.battery < 100 then
            let batteryRechargePercent := remainingSurplus / batteryCapacityPerPercent
            { s0 with battery := min 100 (s0.battery + batteryRechargePercent) }
          else s0
        else
          let exportFromBattery := exportAmount - surplus
          if exportFromBattery ≤ maxExportFromBattery then
            -- hybrid export (lines 183-189)
            let s0 : State := { s with gridExport := exportAmount }
            let batteryDrainPercent := exportFromBattery / batteryCapacityPerPercent
            { s0 with battery := max s0.reserve (s0.battery - batteryDrainPercent) }
          else
            -- export limited by the battery (lines 190-197)
            let exportAmount' := surplus + maxExportFromBattery
            let s0 : State := { s with gridExport := exportAmount' }
            { s0 with battery := s0.reserve }
    else
      -- no export demand (lines 200-213)
      if s.battery < 100 then
        let batteryRechargePercent := surplus / batteryCapacityPerPercent
        let s0 : State := { s with battery := min 100 (s.battery + batteryRechargePercent) }
        { s0 with gridExport := 0 }
      else
        { s with gridExport := surplus }
  { s1 with gridImport := 0 }

/-- The engine part of `updateFromBackend` (lines 42-223): take the predictions, charge from
the grid slider, then run the deficit or the surplus branch, and record the legacy `grid`
field and `totalGeneration`. -/
def dispatch (s : State) (predictions : Predictions) : State :=
  let s0 : State :=
    { s with solar := predictions.solar_gen, wind := predictions.wind_gen,
             demand := predictions.demand_forecast }
  let generation := s0.solar + s0.wind
  let balance := generation - s0.load
  let s1 := chargeFromGrid s0
  let s2 := if balance < 0 then deficitCase s1 balance else surplusCase s1 balance
  let s3 : State := { s2 with grid := jsOr s2.gridImport 0 }
  { s3 with totalGeneration := generation }

/-- The constant `maxHistory` of `updateHistory` (line 242). -/
def maxHistory : ℕ := 30

/-- One key of the `forEach` of `updateHistory` (lines 251-255): `shift()` drops the first
element when the series is longer than `maxHistory`. -/
def shiftIfOver (xs : List ℚ) : List ℚ :=
  if xs.length > maxHistory then xs.tail else xs

/-- The method `updateHistory` (lines 241-256): push the four samples, then trim each series. -/
def updateHistory (s : State) : State :=
  let pushed : History :=
    { solar := s.history.solar ++ [s.solar],
      wind := s.history.wind ++ [s.wind],
      grid := s.history.grid ++ [s.grid],
      battery := s.history.battery ++ [s.battery] }
  { s with history :=
      { solar := shiftIfOver pushed.solar,
        wind := shiftIfOver pushed.wind,
        grid := shiftIfOver pushed.grid,
        battery := shiftIfOver pushed.battery } }

/-- The expression `saved ? parseFloat(saved) : 0` (lines 388, 408, 580). -/
def savedOrZero (saved : Option ℚ) : ℚ :=
  match saved with
  | some v => v
  | none => 0

/-- The method `updatePerformanceMetrics` (lines 375-434): accrue cost savings and CO₂. -/
def updatePerformanceMetrics (e : EnergyManagementSystem) : EnergyManagementSystem :=
  let totalGen := jsOr e.state.totalGeneration (e.state.solar + e.state.wind)
  let costSavingsPerHour := totalGen * 5.3
  -- lines 385-389: a falsy total is reloaded from localStorage
  let e1 : EnergyManagementSystem :=
    if e.state.costSavingsTotal = 0 then
      { e with state :=
          { e.state with costSavingsTotal := savedOrZero e.localStorage.costSavingsTotal } }
    else e
  let e2 : EnergyManagementSystem :=
    { e1 with state :=
        { e1.state with costSavingsTotal := e1.state.costSavingsTotal + costSavingsPerHour } }
  let e3 : EnergyManagementSystem :=
    { e2 with localStorage :=
        { e2.localStorage with costSavingsTotal := some e2.state.costSavingsTotal } }
  let co2ReducedPerHour := totalGen * 0.91
  -- lines 405-409
  let e4 : EnergyManagementSystem :=
    if e3.state.co2ReducedTotal = 0 then
      { e3 with state :=
          { e3.state with co2ReducedTotal := savedOrZero e3.localStorage.co2ReducedTotal } }
    else e3
  let e5 : EnergyManagementSystem :=
    { e4 with state :=
        { e4.state with co2ReducedTotal := e4.state.co2ReducedTotal + co2ReducedPerHour } }
  { e5 with localStorage :=
      { e5.localStorage with co2ReducedTotal := some e5.state.co2ReducedTotal } }

/-- The method `updateExportEarnings` (lines 436-489): it only writes display elements. -/
def updateExportEarnings (e : EnergyManagementSystem) : EnergyManagementSystem := e

/-- The expression `parseFloat(input?.value || 6.0)` of line 494, on the value of the
`#gridRate` input. -/
def parseGridRate (input : Option ℚ) : ℚ :=
  match input with
  | some v => v
  | none => 6.0

/-- The value `parseFloat(document.getElementById('gridRate')?.value || 6.0)` (line 494). -/
def gridRate (e : EnergyManagementSystem) : ℚ := parseGridRate e.gridRateInput

/-- The method `updateCumulativeExportMetrics` (lines 491-543). -/
def updateCumulativeExportMetrics (e : EnergyManagementSystem) : EnergyManagementSystem :=
  let gridRate := gridRate e
  let currentExportingNow := jsOr e.state.gridExport 0
  let e1 : EnergyManagementSystem :=
    if currentExportingNow > 0 then
      let e0 : EnergyManagementSystem :=
        { e with state :=
            { e.state with gridExportTotal := e.state.gridExportTotal + currentExportingNow } }
      let incomeThisTick := currentExportingNow * gridRate
      { e0 with state :=
          { e0.state with gridExportIncome := e0.state.gridExportIncome + incomeThisTick } }
    else e
  let totalNetIncome := e1.state.gridExportIncome - e1.state.gridImportCostTotal
  let e2 : EnergyManagementSystem := { e1 with totalNetIncome := totalNetIncome }
  { e2 with localStorage :=
      { e2.localStorage with gridExportTotal := some e2.state.gridExportTotal,
                             gridExportIncome := some e2.state.gridExportIncome } }

/-- The method `updateGridImportDisplay` (lines 546-564): it only writes display elements. -/
def updateGridImportDisplay (e : EnergyManagementSystem) : EnergyManagementSystem := e

/-- The method `updateGridImportCosts` (lines 566-595). -/
def updateGridImportCosts (e : EnergyManagementSystem) : EnergyManagementSystem :=
  let actualGridImport := jsOr e.state.gridImport 0
  let gridImportForBattery := jsOr e.state.gridImportAmount 0
  let totalGridUsage := actualGridImport + gridImportForBattery
  let costPerHour := totalGridUsage * 5.4
  -- lines 577-581
  let e1 : EnergyManagementSystem :=
    if e.state.gridImportCostTotal = 0 then
      { e with state :=
          { e.state with gridImportCostTotal := savedOrZero e.localStorage.gridImportCostTotal } }
    else e
  let e2 : EnergyManagementSystem :=
    { e1 with state :=
        { e1.state with gridImportCostTotal := e1.state.gridImportCostTotal + costPerHour } }
  { e2 with localStorage :=
      { e2.localStorage with gridImportCostTotal := some e2.state.gridImportCostTotal } }

/-- The method `updateKPIs` (lines 325-373): after the display writes, the four ledger
updates in the order of lines 358-371. -/
def updateKPIs (e : EnergyManagementSystem) : EnergyManagementSystem :=
  let e1 := updatePerformanceMetrics e
  let e2 := updateExportEarnings e1
  let e3 := updateCumulativeExportMetrics e2
  let e4 := updateGridImportDisplay e3
  updateGridImportCosts e4

/-- The method `updateFromBackend` (lines 40-239): dispatch, count the data point, record
the history, then refresh the KPIs (which accrues the ledger). -/
def updateFromBackend (e : EnergyManagementSystem) (predictions : Predictions) :
    EnergyManagementSystem :=
  let s1 := dispatch e.state predictions
  let s2 : State := { s1 with dataPoints := s1.dataPoints + 1 }
  let s3 := updateHistory s2
  updateKPIs { e with state := s3 }

/-- The constructor (lines 3-38): the initial state, with the ledger counters read from
`localStorage` as `parseFloat(item) || 0`. -/
def new (localStorage : LocalStorage) (gridRateInput : Option ℚ) : EnergyManagementSystem :=
  { state :=
      { solar := 0, wind := 0, battery := 55, grid := 0, gridImport := 0, gridExport := 0,
        totalGeneration := 0, load := 6.0, demand := 0, batteryPriority := 50, reserve := 20,
        exportDemand := 0, dataPoints := 0,
        history := { solar := [], wind := [], grid := [], battery := [] },
        co2ReducedTotal := jsOr (savedOrZero localStorage.co2ReducedTotal) 0,
        costSavingsTotal := jsOr (savedOrZero localStorage.costSavingsTotal) 0,
        gridImportAmount := 0,
        gridImportCostTotal := jsOr (savedOrZero localStorage.gridImportCostTotal) 0,
        gridExportTotal := jsOr (savedOrZero localStorage.gridExportTotal) 0,
        gridExportIncome := jsOr (savedOrZero localStorage.gridExportIncome) 0 },
    localStorage := localStorage,
    gridRateInput := gridRateInput,
    totalNetIncome := 0 }

/-- What the page's controls hold when a tick fires: the predictions of the backend and the
values the slider listeners (lines 943-963, 1161-1166, 1444-1456) and the `#gridRate` input
have put in place since the previous tick. -/
structure TickInput where
  predictions : Predictions
  load : ℚ
  batteryPriority : ℚ
  reserve : ℚ
  exportDemand : ℚ
  gridImportAmount : ℚ
  gridRateInput : Option ℚ
  deriving DecidableEq

/-- The effect of the control listeners before a tick: each writes one field of the state. -/
def applyControls (e : EnergyManagementSystem) (t : TickInput) : EnergyManagementSystem :=
  { e with
    state :=
      { e.state with load := t.load, batteryPriority := t.batteryPriority,
                     reserve := t.reserve, exportDemand := t.exportDemand,
                     gridImportAmount := t.gridImportAmount },
    gridRateInput := t.gridRateInput }

/-- One tick (`runTick`, line 1624): the controls as set, then `updateFromBackend`. -/
def tick (e : EnergyManagementSystem) (t : TickInput) : EnergyManagementSystem :=
  updateFromBackend (applyControls e t) t.predictions

/-- The page after a sequence of ticks. -/
def runTicks (e : EnergyManagementSystem) (ts : List TickInput) : EnergyManagementSystem :=
  ts.foldl tick e

/-- The input contract of a tick (spec, sections 3 and 7): generation, load, export demand,
manual grid charge and grid rate are non-negative; battery priority and reserve are in
`[0, 100]`. -/
def TickInput.InContract (t : TickInput) : Prop :=
  0 ≤ t.predictions.solar_gen ∧ 0 ≤ t.predictions.wind_gen ∧ 0 ≤ t.load ∧
  0 ≤ t.exportDemand ∧ 0 ≤ t.gridImportAmount ∧ 0 ≤ parseGridRate t.gridRateInput ∧
  0 ≤ t.batteryPriority ∧ t.batteryPriority ≤ 100 ∧ 0 ≤ t.reserve ∧ t.reserve ≤ 100

instance (t : TickInput) : Decidable t.InContract := by
  unfold TickInput.InContract; infer_instance

/-- The items of `localStorage` mirror the counters that the ledger reloads when it finds them
falsy (lines 385-389, 405-409, 577-581).  The constructor establishes this and every accrual
re-establishes it, each counter being written back right after it is updated. -/
def Synced (e : EnergyManagementSystem) : Prop :=
  savedOrZero e.localStorage.costSavingsTotal = e.state.costSavingsTotal ∧
  savedOrZero e.localStorage.co2ReducedTotal = e.state.co2ReducedTotal ∧
  savedOrZero e.localStorage.gridImportCostTotal = e.state.gridImportCostTotal

instance (e : EnergyManagementSystem) : Decidable (Synced e) := by
  unfold Synced; infer_instance

/-! ### The listeners of the controls -/

/-- The method `saveSettings` (lines 967-976): it writes the item `energyManagementSettings`
of `localStorage`, which is none of the ledger's items. -/
def saveSettings (e : EnergyManagementSystem) : EnergyManagementSystem := e

/-- The `input` listener of `#reserveSlider` (lines 943-949), on `parseInt` of the value. -/
def reserveSliderInput (e : EnergyManagementSystem) (value : ℤ) : EnergyManagementSystem :=
  let e1 : EnergyManagementSystem := { e with state := { e.state with reserve := value } }
  saveSettings (updateExportEarnings e1)

/-- The `input` listener of `#batteryPrioritySlider` (lines 952-956), on `parseInt` of the
value. -/
def batteryPrioritySliderInput (e : EnergyManagementSystem) (value : ℤ) :
    EnergyManagementSystem :=
  let e1 : EnergyManagementSystem :=
    { e with state := { e.state with batteryPriority := value } }
  saveSettings e1

/-- The `input` listener of `#exportDemandSlider` (lines 959-964). -/
def exportDemandSliderInput (e : EnergyManagementSystem) (value : ℚ) :
    EnergyManagementSystem :=
  let e1 : EnergyManagementSystem := { e with state := { e.state with exportDemand := value } }
  saveSettings (updateExportEarnings e1)

/-- The `input` listener of the consumption slider (lines 1161-1168): Wh to kW. -/
def consumptionInput (e : EnergyManagementSystem) (consumptionWh : ℚ) :
    EnergyManagementSystem :=
  let consumptionKW := consumptionWh / 1000
  { e with state := { e.state with load := consumptionKW } }

/-- The `input` listener of `#gridRate` (lines 1420-1426), after the browser has put the new
value in the input. -/
def gridRateInputChange (e : EnergyManagementSystem) (value : Option ℚ) :
    EnergyManagementSystem :=
  updateExportEarnings { e with gridRateInput := value }

/-- The `input` listener of `#sunHoursSlider` (lines 1428-1433). -/
def sunHoursInput (e : EnergyManagementSystem) : EnergyManagementSystem :=
  updateExportEarnings e

/-- The `input` listener of `#gridImportSlider` (lines 1444-1457). -/
def gridImportSliderInput (e : EnergyManagementSystem) (value : ℚ) :
    EnergyManagementSystem :=
  let e1 : EnergyManagementSystem :=
    { e with state := { e.state with gridImportAmount := value } }
  updateGridImportDisplay e1

/-- The `click` listener of `#optimizeBtn` (lines 1310-1355). -/
def optimizeClick (e : EnergyManagementSystem) : EnergyManagementSystem :=
  let batteryLevel := e.state.battery
  let generation := e.state.solar + e.state.wind
  let load := e.state.load
  let balance := generation - load
  let e1 : EnergyManagementSystem :=
    if batteryLevel < 30 ∧ balance > 0 then
      { e with state := { e.state with batteryPriority := 90 } }
    else if batteryLevel > 80 ∧ balance < 0 then
      { e with state := { e.state with batteryPriority := 90 } }
    else if batteryLevel > 80 ∧ balance > 0 then
      { e with state := { e.state with batteryPriority := 30 } }
    else if batteryLevel < 30 ∧ balance < 0 then
      { e with state := { e.state with batteryPriority := 40 } }
    else
      { e with state := { e.state with batteryPriority := 60 } }
  let e2 := saveSettings e1
  -- line 1354: "Trigger immediate recalculation"
  updateKPIs e2

/-- The `click` listener of `#resetBtn` (lines 1358-1383). -/
def resetClick (e : EnergyManagementSystem) : EnergyManagementSystem :=
  let e1 : EnergyManagementSystem := { e with state := { e.state with load := 0.25 } }
  let e2 : EnergyManagementSystem :=
    { e1 with state := { e1.state with batteryPriority := 50 } }
  let e3 : EnergyManagementSystem := { e2 with state := { e2.state with reserve := 20 } }
  let e4 : EnergyManagementSystem := { e3 with state := { e3.state with exportDemand := 0 } }
  saveSettings e4

/-- The user actions on the controls of the page that are not ticks. -/
inductive UserAction where
  | gridImportSlider (value : ℚ)
  | gridRate (value : Option ℚ)
  | sunHours
  | reserveSlider (value : ℤ)
  | batteryPrioritySlider (value : ℤ)
  | exportDemandSlider (value : ℚ)
  | consumption (consumptionWh : ℚ)
  | optimize
  | reset
  deriving DecidableEq

/-- The listener that a user action runs. -/
def perform (e : EnergyManagementSystem) : UserAction → EnergyManagementSystem
  | .gridImportSlider value => gridImportSliderInput e value
  | .gridRate value => gridRateInputChange e value
  | .sunHours => sunHoursInput e
  | .reserveSlider value => reserveSliderInput e value
  | .batteryPrioritySlider value => batteryPrioritySliderInput e value
  | .exportDemandSlider value => exportDemandSliderInput e value
  | .consumption consumptionWh => consumptionInput e consumptionWh
  | .optimize => optimizeClick e
  | .reset => resetClick e

/-! ### Concrete pages used as witnesses -/

/-- A page fresh from the constructor (empty `localStorage`, no `#gridRate` value) on which
the battery level and the five controls have been set. -/
def sample (battery reserve batteryPriority load exportDemand gridImportAmount : ℚ) :
    EnergyManagementSystem :=
  let e := new ⟨none, none, none, none, none⟩ none
  { e with state :=
      { e.state with battery := battery, reserve := reserve,
                     batteryPriority := batteryPriority, load := load,
                     exportDemand := exportDemand, gridImportAmount := gridImportAmount } }

/-! ## Theorems -/

/-! ### Closed forms of the branches of `updateFromBackend` -/

theorem jsOr_zero (a : ℚ) : jsOr a 0 = a := by
  unfold jsOr; split_ifs with h
  · rfl
  · push_neg at h; exact h.symm

theorem chargeFromGrid_eq (s : State) :
    chargeFromGrid s =
      { s with battery :=
          if 0 < s.gridImportAmount ∧ s.battery < 100 then
            min 100 (s.battery + s.gridImportAmount / 500)
          else s.battery } := by
  simp only [chargeFromGrid, jsOr_zero, batteryCapacityPerPercent, gt_iff_lt]
  split_ifs <;> rfl

theorem deficitCase_gridExport (s : State) (balance : ℚ) :
    (deficitCase s balance).gridExport =
      if 0 < s.exportDemand ∧ s.reserve < s.battery then
        min s.exportDemand ((s.battery - s.reserve) * 500)
      else 0 := by
  simp only [deficitCase, batteryCapacityPerPercent, gt_iff_lt]
  split_ifs <;> rfl

theorem deficitCase_battery (s : State) (balance : ℚ) :
    (deficitCase s balance).battery =
      if s.reserve < s.battery then
        max s.reserve (s.battery -
          (-balance * (s.batteryPriority / 100) + (deficitCase s balance).gridExport) / 500)
      else s.battery := by
  rw [deficitCase_gridExport]
  simp only [deficitCase, batteryCapacityPerPercent, gt_iff_lt]
  split_ifs <;> rfl

theorem deficitCase_gridImport (s : State) (balance : ℚ) :
    (deficitCase s balance).gridImport =
      if s.reserve < (deficitCase s balance).battery then
        -balance * ((100 - s.batteryPriority) / 100)
      else -balance := by
  rw [deficitCase_battery, deficitCase_gridExport]
  simp only [deficitCase, batteryCapacityPerPercent, gt_iff_lt]
  split_ifs <;> rfl

theorem deficitCase_frame (s : State) (balance : ℚ) :
    deficitCase s balance =
      { s with gridExport := (deficitCase s balance).gridExport,
               battery := (deficitCase s balance).battery,
               gridImport := (deficitCase s balance).gridImport } := by
  simp only [deficitCase, batteryCapacityPerPercent, gt_iff_lt]
  split_ifs <;> rfl

theorem surplusCase_gridExport (s : State) (balance : ℚ) :
    (surplusCase s balance).gridExport =
      if 0 < s.exportDemand then
        if s.battery ≤ s.reserve then 0
        else if s.exportDemand ≤ balance then s.exportDemand
        else if s.exportDemand - balance ≤ (s.battery - s.reserve) * 500 then s.exportDemand
        else balance + (s.battery - s.reserve) * 500
      else if s.battery < 100 then 0 else balance := by
  simp only [surplusCase, batteryCapacityPerPercent, gt_iff_lt, ge_iff_le, Bool.not_eq_true',
    decide_eq_false_iff_not, not_lt]
  split_ifs <;> rfl

theorem surplusCase_battery (s : State) (balance : ℚ) :
    (surplusCase s balance).battery =
      if 0 < s.exportDemand then
        if s.battery ≤ s.reserve then
          if s.battery < 100 then min 100 (s.battery + balance / 500) else s.battery
        else if s.exportDemand ≤ balance then
          if 0 < balance - s.exportDemand ∧ s.battery < 100 then
            min 100 (s.battery + (balance - s.exportDemand) / 500)
          else s.battery
        else if s.exportDemand - balance ≤ (s.battery - s.reserve) * 500 then
          max s.reserve (s.battery - (s.exportDemand - balance) / 500)
        else s.reserve
      else if s.battery < 100 then min 100 (s.battery + balance / 500) else s.battery := by
  simp only [surplusCase, batteryCapacityPerPercent, gt_iff_lt, ge_iff_le, Bool.not_eq_true',
    decide_eq_false_iff_not, not_lt]
  split_ifs <;> rfl

theorem surplusCase_gridImport (s : State) (balance : ℚ) :
    (surplusCase s balance).gridImport = 0 := rfl

theorem surplusCase_frame (s : State) (balance : ℚ) :
    surplusCase s balance =
      { s with gridExport := (surplusCase s balance).gridExport,
               battery := (surplusCase s balance).battery,
               gridImport := (surplusCase s balance).gridImport } := by
  simp only [surplusCase, batteryCapacityPerPercent, gt_iff_lt, ge_iff_le, Bool.not_eq_true',
    decide_eq_false_iff_not, not_lt]
  split_ifs <;> rfl

/-- The three outputs of the engine in a deficit tick, in terms of the state of charge
that STEP 1 leaves. -/
theorem dispatch_deficit (s : State) (p : Predictions)
    (h : p.solar_gen + p.wind_gen < s.load) :
    (dispatch s p).gridExport =
        (if 0 < s.exportDemand ∧ s.reserve < (chargeFromGrid s).battery then
          min s.exportDemand (((chargeFromGrid s).battery - s.reserve) * 500)
        else 0) ∧
    (dispatch s p).battery =
        (if s.reserve < (chargeFromGrid s).battery then
          max s.reserve ((chargeFromGrid s).battery -
            ((s.load - (p.solar_gen + p.wind_gen)) * (s.batteryPriority / 100)
              + (dispatch s p).gridExport) / 500)
        else (chargeFromGrid s).battery) ∧
    (dispatch s p).gridImport =
        (if s.reserve < (dispatch s p).battery then
          (s.load - (p.solar_gen + p.wind_gen)) * ((100 - s.batteryPriority) / 100)
        else s.load - (p.solar_gen + p.wind_gen)) := by
  have hb : p.solar_gen + p.wind_gen - s.load < 0 := by linarith
  simp only [dispatch, hb, if_true]
  refine ⟨?_, ?_, ?_⟩
  · show (deficitCase _ _).gridExport = _
    rw [deficitCase_gridExport]
    simp only [chargeFromGrid_eq]
  · show (deficitCase _ _).battery = _
    rw [deficitCase_battery, deficitCase_gridExport]
    simp only [chargeFromGrid_eq, neg_sub]
  · show (deficitCase _ _).gridImport = _
    rw [deficitCase_gridImport, deficitCase_battery, deficitCase_gridExport]
    simp only [chargeFromGrid_eq, neg_sub]

/-- The three outputs of the engine in a surplus tick, in terms of the state of charge
that STEP 1 leaves. -/
theorem dispatch_surplus (s : State) (p : Predictions)
    (h : s.load ≤ p.solar_gen + p.wind_gen) :
    (dispatch s p).gridExport = (surplusCase (chargeFromGrid s)
        (p.solar_gen + p.wind_gen - s.load)).gridExport ∧
    (dispatch s p).battery = (surplusCase (chargeFromGrid s)
        (p.solar_gen + p.wind_gen - s.load)).battery ∧
    (dispatch s p).gridImport = 0 := by
  have hb : ¬ (p.solar_gen + p.wind_gen - s.load < 0) := by linarith
  simp only [dispatch, hb, if_false]
  refine ⟨?_, ?_, ?_⟩
  · show (surplusCase _ _).gridExport = (surplusCase _ _).gridExport
    rw [surplusCase_gridExport, surplusCase_gridExport]
    simp only [chargeFromGrid_eq]
  · show (surplusCase _ _).battery = (surplusCase _ _).battery
    rw [surplusCase_battery, surplusCase_battery]
    simp only [chargeFromGrid_eq]
  · rfl

theorem chargeFromGrid_battery_ge (s : State) : s.battery ≤ (chargeFromGrid s).battery := by
  rw [chargeFromGrid_eq]
  dsimp only
  split_ifs with h
  · exact le_min (le_of_lt h.2) (by linarith [div_pos h.1 (by norm_num : (0:ℚ) < 500)])
  · exact le_refl _

theorem chargeFromGrid_battery_le (s : State) (h : s.battery ≤ 100) :
    (chargeFromGrid s).battery ≤ 100 := by
  rw [chargeFromGrid_eq]
  dsimp only
  split_ifs
  · exact min_le_left _ _
  · exact h

theorem surplusCase_battery_ge (s : State) (balance : ℚ) (hbal : 0 ≤ balance) :
    min s.battery s.reserve ≤ (surplusCase s balance).battery := by
  rw [surplusCase_battery]
  have h500 : 0 ≤ balance / 500 := by positivity
  split_ifs <;> simp only [min_def, max_def] <;> split_ifs <;> linarith

/-! ### The ledger updates leave the engine's outputs alone -/

theorem updateHistory_frame (s : State) :
    (updateHistory s).battery = s.battery ∧ (updateHistory s).gridImport = s.gridImport ∧
    (updateHistory s).gridExport = s.gridExport ∧
    (updateHistory s).totalGeneration = s.totalGeneration ∧
    (updateHistory s).solar = s.solar ∧ (updateHistory s).wind = s.wind ∧
    (updateHistory s).gridImportAmount = s.gridImportAmount :=
  ⟨rfl, rfl, rfl, rfl, rfl, rfl, rfl⟩

theorem updatePerformanceMetrics_frame (e : EnergyManagementSystem) :
    (updatePerformanceMetrics e).state.battery = e.state.battery ∧
    (updatePerformanceMetrics e).state.gridImport = e.state.gridImport ∧
    (updatePerformanceMetrics e).state.gridExport = e.state.gridExport ∧
    (updatePerformanceMetrics e).state.gridImportAmount = e.state.gridImportAmount ∧
    (updatePerformanceMetrics e).state.gridExportTotal = e.state.gridExportTotal ∧
    (updatePerformanceMetrics e).state.gridExportIncome = e.state.gridExportIncome ∧
    (updatePerformanceMetrics e).state.gridImportCostTotal = e.state.gridImportCostTotal ∧
    (updatePerformanceMetrics e).gridRateInput = e.gridRateInput ∧
    (updatePerformanceMetrics e).localStorage.gridImportCostTotal
      = e.localStorage.gridImportCostTotal := by
  simp only [updatePerformanceMetrics]
  split_ifs <;> exact ⟨rfl, rfl, rfl, rfl, rfl, rfl, rfl, rfl, rfl⟩

theorem updateCumulativeExportMetrics_frame (e : EnergyManagementSystem) :
    (updateCumulativeExportMetrics e).state.battery = e.state.battery ∧
    (updateCumulativeExportMetrics e).state.gridImport = e.state.gridImport ∧
    (updateCumulativeExportMetrics e).state.gridExport = e.state.gridExport ∧
    (updateCumulativeExportMetrics e).state.gridImportAmount = e.state.gridImportAmount ∧
    (updateCumulativeExportMetrics e).state.costSavingsTotal = e.state.costSavingsTotal ∧
    (updateCumulativeExportMetrics e).state.co2ReducedTotal = e.state.co2ReducedTotal ∧
    (updateCumulativeExportMetrics e).state.gridImportCostTotal
      = e.state.gridImportCostTotal ∧
    (updateCumulativeExportMetrics e).localStorage.gridImportCostTotal
      = e.localStorage.gridImportCostTotal ∧
    (updateCumulativeExportMetrics e).localStorage.costSavingsTotal
      = e.localStorage.costSavingsTotal ∧
    (updateCumulativeExportMetrics e).localStorage.co2ReducedTotal
      = e.localStorage.co2ReducedTotal := by
  simp only [updateCumulativeExportMetrics]
  split_ifs <;> exact ⟨rfl, rfl, rfl, rfl, rfl, rfl, rfl, rfl, rfl, rfl⟩

theorem updateGridImportCosts_frame (e : EnergyManagementSystem) :
    (updateGridImportCosts e).state.battery = e.state.battery ∧
    (updateGridImportCosts e).state.gridImport = e.state.gridImport ∧
    (updateGridImportCosts e).state.gridExport = e.state.gridExport ∧
    (updateGridImportCosts e).state.costSavingsTotal = e.state.costSavingsTotal ∧
    (updateGridImportCosts e).state.co2ReducedTotal = e.state.co2ReducedTotal ∧
    (updateGridImportCosts e).state.gridExportTotal = e.state.gridExportTotal ∧
    (updateGridImportCosts e).state.gridExportIncome = e.state.gridExportIncome ∧
    (updateGridImportCosts e).localStorage.costSavingsTotal
      = e.localStorage.costSavingsTotal ∧
    (updateGridImportCosts e).localStorage.co2ReducedTotal
      = e.localStorage.co2ReducedTotal := by
  simp only [updateGridImportCosts]
  split_ifs <;> exact ⟨rfl, rfl, rfl, rfl, rfl, rfl, rfl, rfl, rfl⟩

theorem updateKPIs_frame (e : EnergyManagementSystem) :
    (updateKPIs e).state.battery = e.state.battery ∧
    (updateKPIs e).state.gridImport = e.state.gridImport ∧
    (updateKPIs e).state.gridExport = e.state.gridExport := by
  simp only [updateKPIs, updateExportEarnings, updateGridImportDisplay]
  refine ⟨?_, ?_, ?_⟩
  · rw [(updateGridImportCosts_frame _).1, (updateCumulativeExportMetrics_frame _).1,
      (updatePerformanceMetrics_frame _).1]
  · rw [(updateGridImportCosts_frame _).2.1, (updateCumulativeExportMetrics_frame _).2.1,
      (updatePerformanceMetrics_frame _).2.1]
  · rw [(updateGridImportCosts_frame _).2.2.1, (updateCumulativeExportMetrics_frame _).2.2.1,
      (updatePerformanceMetrics_frame _).2.2.1]

/-- After `updateFromBackend` the state shows the battery level and the grid flows that the
engine part computed. -/
theorem updateFromBackend_outputs (e : EnergyManagementSystem) (p : Predictions) :
    (updateFromBackend e p).state.battery = (dispatch e.state p).battery ∧
    (updateFromBackend e p).state.gridImport = (dispatch e.state p).gridImport ∧
    (updateFromBackend e p).state.gridExport = (dispatch e.state p).gridExport := by
  simp only [updateFromBackend]
  refine ⟨?_, ?_, ?_⟩
  · rw [(updateKPIs_frame _).1]; rfl
  · rw [(updateKPIs_frame _).2.1]; rfl
  · rw [(updateKPIs_frame _).2.2]; rfl

/-! ### Bounds on the engine's outputs -/

theorem surplusCase_gridExport_nonneg (s : State) (balance : ℚ) (hbal : 0 ≤ balance) :
    0 ≤ (surplusCase s balance).gridExport := by
  rw [surplusCase_gridExport]
  split_ifs with h1 h2 h3 h4 h5
  · exact le_refl _
  · exact le_of_lt h1
  · exact le_of_lt h1
  · have : 0 < (s.battery - s.reserve) * 500 := by linarith
    linarith
  · exact le_refl _
  · exact hbal

theorem surplusCase_battery_le (s : State) (balance : ℚ) (hb : s.battery ≤ 100) :
    (surplusCase s balance).battery ≤ 100 := by
  rw [surplusCase_battery]
  split_ifs <;> (try simp only [min_def, max_def]) <;> (try split_ifs) <;> linarith

theorem dispatch_gridExport_nonneg (s : State) (p : Predictions) :
    0 ≤ (dispatch s p).gridExport := by
  rcases lt_or_le (p.solar_gen + p.wind_gen) s.load with h | h
  · rw [(dispatch_deficit s p h).1]
    split_ifs with h1
    · have : 0 < ((chargeFromGrid s).battery - s.reserve) * 500 := by linarith [h1.2]
      exact le_min (le_of_lt h1.1) (le_of_lt this)
    · exact le_refl _
  · rw [(dispatch_surplus s p h).1]
    exact surplusCase_gridExport_nonneg _ _ (by linarith)

theorem dispatch_gridImport_nonneg (s : State) (p : Predictions)
    (hp : s.batteryPriority ≤ 100) : 0 ≤ (dispatch s p).gridImport := by
  rcases lt_or_le (p.solar_gen + p.wind_gen) s.load with h | h
  · rw [(dispatch_deficit s p h).2.2]
    split_ifs
    · exact mul_nonneg (by linarith) (div_nonneg (by linarith) (by norm_num))
    · linarith
  · rw [(dispatch_surplus s p h).2.2]

theorem dispatch_battery_ge (s : State) (p : Predictions) :
    min (chargeFromGrid s).battery s.reserve ≤ (dispatch s p).battery := by
  rcases lt_or_le (p.solar_gen + p.wind_gen) s.load with h | h
  · rw [(dispatch_deficit s p h).2.1]
    split_ifs with h1
    · exact le_trans (min_le_right _ _) (le_max_left _ _)
    · exact min_le_left _ _
  · rw [(dispatch_surplus s p h).2.1]
    have := surplusCase_battery_ge (chargeFromGrid s) (p.solar_gen + p.wind_gen - s.load)
      (by linarith)
    simpa only [chargeFromGrid_eq] using this

theorem dispatch_battery_le (s : State) (p : Predictions) (hb : s.battery ≤ 100)
    (hp : 0 ≤ s.batteryPriority) : (dispatch s p).battery ≤ 100 := by
  have hb1 := chargeFromGrid_battery_le s hb
  rcases lt_or_le (p.solar_gen + p.wind_gen) s.load with h | h
  · rw [(dispatch_deficit s p h).2.1]
    split_ifs with h1
    · have hx : 0 ≤ (s.load - (p.solar_gen + p.wind_gen)) * (s.batteryPriority / 100) :=
        mul_nonneg (by linarith) (div_nonneg hp (by norm_num))
      have hg := dispatch_gridExport_nonneg s p
      apply max_le (by linarith)
      have : 0 ≤ ((s.load - (p.solar_gen + p.wind_gen)) * (s.batteryPriority / 100)
          + (dispatch s p).gridExport) / 500 := by positivity
      linarith
    · exact hb1
  · rw [(dispatch_surplus s p h).2.1]
    exact surplusCase_battery_le _ _ hb1

/-! ### Facts about the concrete pages -/

theorem sample_state (b r pr l ed m : ℚ) :
    (sample b r pr l ed m).state.battery = b ∧ (sample b r pr l ed m).state.reserve = r ∧
    (sample b r pr l ed m).state.batteryPriority = pr ∧ (sample b r pr l ed m).state.load = l ∧
    (sample b r pr l ed m).state.exportDemand = ed ∧
    (sample b r pr l ed m).state.gridImportAmount = m :=
  ⟨rfl, rfl, rfl, rfl, rfl, rfl⟩

theorem chargeFromGrid_sample (b r pr l ed m : ℚ) :
    (chargeFromGrid (sample b r pr l ed m).state).battery =
      if 0 < m ∧ b < 100 then min 100 (b + m / 500) else b := by
  rw [chargeFromGrid_eq]; rfl

/-! ### The claims -/

/-- C1. After `updateFromBackend` the state of charge is in `[0, 100]`, whenever it was in
`[0, 100]` before the tick, the reserve is non-negative and the battery priority is
non-negative; this holds for every generation, load, export demand and manual grid charge
(the remaining contract bounds are not needed). -/
theorem updateFromBackend_battery_in_range (e : EnergyManagementSystem) (p : Predictions)
    (hb0 : 0 ≤ e.state.battery) (hb1 : e.state.battery ≤ 100)
    (hr : 0 ≤ e.state.reserve) (hp : 0 ≤ e.state.batteryPriority) :
    0 ≤ (updateFromBackend e p).state.battery ∧
      (updateFromBackend e p).state.battery ≤ 100 := by
  rw [(updateFromBackend_outputs e p).1]
  refine ⟨?_, dispatch_battery_le e.state p hb1 hp⟩
  have h1 := chargeFromGrid_battery_ge e.state
  exact le_trans (le_min (le_trans hb0 h1) hr) (dispatch_battery_ge e.state p)

/-- C1 at battery 99 %, reserve 20 %, priority 50 %, generation 150 kW, load 200 kW, export
demand 10 kW and a manual grid charge of 1000 kW. -/
theorem updateFromBackend_battery_in_range_witness :
    0 ≤ (updateFromBackend (sample 99 20 50 200 10 1000) ⟨100, 50, 0⟩).state.battery ∧
      (updateFromBackend (sample 99 20 50 200 10 1000) ⟨100, 50, 0⟩).state.battery ≤ 100 :=
  updateFromBackend_battery_in_range (sample 99 20 50 200 10 1000) ⟨100, 50, 0⟩
    (by norm_num [sample_state]) (by norm_num [sample_state])
    (by norm_num [sample_state]) (by norm_num [sample_state])

/-- C2, as stated, fails: with export demand 10 kW in a deficit tick (battery 55 %, reserve
20 %, priority 50 %, generation 150 kW, load 200 kW) the engine imports 25 kW and exports
10 kW in the same tick. -/
theorem import_export_exclusive_counterexample :
    (updateFromBackend (sample 55 20 50 200 10 0) ⟨100, 50, 0⟩).state.gridImport = 25 ∧
    (updateFromBackend (sample 55 20 50 200 10 0) ⟨100, 50, 0⟩).state.gridExport = 10 ∧
    min (updateFromBackend (sample 55 20 50 200 10 0) ⟨100, 50, 0⟩).state.gridImport
        (updateFromBackend (sample 55 20 50 200 10 0) ⟨100, 50, 0⟩).state.gridExport ≠ 0 := by
  obtain ⟨hE, hB, hG⟩ := dispatch_deficit (sample 55 20 50 200 10 0).state ⟨100, 50, 0⟩
    (by norm_num [sample_state])
  rw [hE] at hB
  rw [hB] at hG
  rw [(updateFromBackend_outputs _ _).2.1, (updateFromBackend_outputs _ _).2.2, hE, hG]
  norm_num [chargeFromGrid_sample, sample_state]

/-- C2, amended. With `batteryPriority ≤ 100`, every tick that is not a deficit tick with a
positive export demand and the battery above reserve (after the manual-charge step) has
`min(gridImport, gridExport) = 0`. -/
theorem import_export_exclusive (e : EnergyManagementSystem) (p : Predictions)
    (hp : e.state.batteryPriority ≤ 100)
    (hcase : ¬ (p.solar_gen + p.wind_gen < e.state.load ∧ 0 < e.state.exportDemand ∧
      e.state.reserve < (chargeFromGrid e.state).battery)) :
    min (updateFromBackend e p).state.gridImport (updateFromBackend e p).state.gridExport
      = 0 := by
  rw [(updateFromBackend_outputs e p).2.1, (updateFromBackend_outputs e p).2.2]
  rcases lt_or_le (p.solar_gen + p.wind_gen) e.state.load with h | h
  · have hE : (dispatch e.state p).gridExport = 0 := by
      rw [(dispatch_deficit e.state p h).1]
      exact if_neg (fun hc => hcase ⟨h, hc.1, hc.2⟩)
    rw [hE]
    exact min_eq_right (dispatch_gridImport_nonneg e.state p hp)
  · rw [(dispatch_surplus e.state p h).2.2]
    exact min_eq_left (dispatch_gridExport_nonneg e.state p)

/-- C2, amended, at a surplus tick with export demand (battery 90 %, reserve 20 %, generation
400 kW, load 200 kW, export demand 50 kW). -/
theorem import_export_exclusive_witness :
    min (updateFromBackend (sample 90 20 50 200 50 0) ⟨300, 100, 0⟩).state.gridImport
      (updateFromBackend (sample 90 20 50 200 50 0) ⟨300, 100, 0⟩).state.gridExport = 0 :=
  import_export_exclusive (sample 90 20 50 200 50 0) ⟨300, 100, 0⟩
    (by norm_num [sample_state]) (by norm_num [sample_state])

/-- C3. Within a tick the battery is never discharged below reserve: the state of charge
after `updateFromBackend` is at least the smaller of the reserve and the state of charge
that the manual-charge step left (for every reserve, priority and export demand). -/
theorem battery_not_discharged_below_reserve (e : EnergyManagementSystem) (p : Predictions) :
    min (chargeFromGrid e.state).battery e.state.reserve
      ≤ (updateFromBackend e p).state.battery := by
  rw [(updateFromBackend_outputs e p).1]
  exact dispatch_battery_ge e.state p

/-- C4, as stated, fails: battery 21 %, reserve 20 %, priority 50 %, no generation, load
2000 kW, no export demand.  The battery is above reserve when the deficit branch starts, the
drain of 1000 kW (2 %) brings it down to the reserve, and the grid import is the full
2000 kW, not 1000 kW. -/
theorem deficit_import_share_counterexample :
    (0 : ℚ) + 0 < (sample 21 20 50 2000 0 0).state.load ∧
    (sample 21 20 50 2000 0 0).state.exportDemand = 0 ∧
    (sample 21 20 50 2000 0 0).state.reserve
      < (chargeFromGrid (sample 21 20 50 2000 0 0).state).battery ∧
    (updateFromBackend (sample 21 20 50 2000 0 0) ⟨0, 0, 0⟩).state.gridImport = 2000 ∧
    (updateFromBackend (sample 21 20 50 2000 0 0) ⟨0, 0, 0⟩).state.gridImport
      ≠ (2000 - (0 + 0)) * (100 - 50) / 100 := by
  obtain ⟨hE, hB, hG⟩ := dispatch_deficit (sample 21 20 50 2000 0 0).state ⟨0, 0, 0⟩
    (by norm_num [sample_state])
  rw [hE] at hB
  rw [hB] at hG
  rw [(updateFromBackend_outputs _ _).2.1, hG]
  norm_num [chargeFromGrid_sample, sample_state]

/-- C4, amended. In a deficit tick with `exportDemand = 0` in which the battery is above
reserve when the deficit branch starts and the drain for the load leaves it above reserve
(`b1 - deficit * batteryPriority / 100 / 500 > reserve`), `gridImport` equals
`deficit * (100 - batteryPriority) / 100`. -/
theorem deficit_import_share (e : EnergyManagementSystem) (p : Predictions)
    (hdef : p.solar_gen + p.wind_gen < e.state.load)
    (hexp : e.state.exportDemand = 0)
    (habove : e.state.reserve < (chargeFromGrid e.state).battery)
    (hstay : e.state.reserve < (chargeFromGrid e.state).battery
      - (e.state.load - (p.solar_gen + p.wind_gen)) * e.state.batteryPriority / 100 / 500) :
    (updateFromBackend e p).state.gridImport
      = (e.state.load - (p.solar_gen + p.wind_gen)) * (100 - e.state.batteryPriority) / 100 := by
  obtain ⟨hE, hB, hG⟩ := dispatch_deficit e.state p hdef
  have hE0 : (dispatch e.state p).gridExport = 0 := by
    rw [hE]; exact if_neg (fun hc => by linarith [hc.1])
  rw [hE0, if_pos habove] at hB
  have hlt : e.state.reserve < (dispatch e.state p).battery := by
    rw [hB]
    apply lt_of_lt_of_le _ (le_max_right _ _)
    have : ((e.state.load - (p.solar_gen + p.wind_gen)) * (e.state.batteryPriority / 100) + 0)
        / 500 = (e.state.load - (p.solar_gen + p.wind_gen)) * e.state.batteryPriority
          / 100 / 500 := by ring
    rw [this]; exact hstay
  rw [(updateFromBackend_outputs e p).2.1, hG, if_pos hlt]
  ring

/-- C4, amended, at scenario A: battery 55 %, reserve 20 %, priority 50 %, generation 150 kW,
load 200 kW gives `gridImport = 50 * (100 - 50) / 100`. -/
theorem deficit_import_share_witness :
    (updateFromBackend (sample 55 20 50 200 0 0) ⟨100, 50, 0⟩).state.gridImport
      = ((sample 55 20 50 200 0 0).state.load - ((100 : ℚ) + 50))
          * (100 - (sample 55 20 50 200 0 0).state.batteryPriority) / 100 :=
  deficit_import_share (sample 55 20 50 200 0 0) ⟨100, 50, 0⟩
    (by norm_num [sample_state]) (by norm_num [sample_state])
    (by norm_num [chargeFromGrid_sample, sample_state])
    (by norm_num [chargeFromGrid_sample, sample_state])

/-- C5. In a deficit tick in which the battery is at or below reserve when the deficit branch
starts, `gridImport` is the full deficit, `gridExport` is 0 and the deficit branch leaves the
state of charge as the manual-charge step left it. -/
theorem deficit_at_reserve (e : EnergyManagementSystem) (p : Predictions)
    (hdef : p.solar_gen + p.wind_gen < e.state.load)
    (hlow : (chargeFromGrid e.state).battery ≤ e.state.reserve) :
    (updateFromBackend e p).state.gridImport = e.state.load - (p.solar_gen + p.wind_gen) ∧
    (updateFromBackend e p).state.gridExport = 0 ∧
    (updateFromBackend e p).state.battery = (chargeFromGrid e.state).battery := by
  obtain ⟨hE, hB, hG⟩ := dispatch_deficit e.state p hdef
  have hnot : ¬ e.state.reserve < (chargeFromGrid e.state).battery := not_lt.mpr hlow
  rw [if_neg hnot] at hB
  rw [hB, if_neg hnot] at hG
  rw [if_neg (fun hc => hnot hc.2)] at hE
  rw [(updateFromBackend_outputs e p).1, (updateFromBackend_outputs e p).2.1,
    (updateFromBackend_outputs e p).2.2]
  exact ⟨hG, hE, hB⟩

/-- C5 at scenario B: battery 20 %, reserve 20 %, priority 50 %, solar 100 kW, wind 50 kW,
load 200 kW gives `gridImport = 50`, `gridExport = 0` and the battery stays at 20 %. -/
theorem deficit_at_reserve_witness :
    (updateFromBackend (sample 20 20 50 200 0 0) ⟨100, 50, 0⟩).state.gridImport = 50 ∧
    (updateFromBackend (sample 20 20 50 200 0 0) ⟨100, 50, 0⟩).state.gridExport = 0 ∧
    (updateFromBackend (sample 20 20 50 200 0 0) ⟨100, 50, 0⟩).state.battery = 20 := by
  have h := deficit_at_reserve (sample 20 20 50 200 0 0) ⟨100, 50, 0⟩
    (by norm_num [sample_state]) (by norm_num [chargeFromGrid_sample, sample_state])
  norm_num [chargeFromGrid_sample, sample_state] at h
  exact h

/-- The surplus branch when there is no export demand (lines 200-213). -/
theorem dispatch_surplus_no_export (s : State) (p : Predictions)
    (hsur : s.load ≤ p.solar_gen + p.wind_gen) (hexp : s.exportDemand = 0) :
    (dispatch s p).gridExport =
        (if (chargeFromGrid s).battery < 100 then 0 else p.solar_gen + p.wind_gen - s.load) ∧
    (dispatch s p).battery =
        (if (chargeFromGrid s).battery < 100 then
          min 100 ((chargeFromGrid s).battery + (p.solar_gen + p.wind_gen - s.load) / 500)
        else (chargeFromGrid s).battery) := by
  obtain ⟨hE, hB, -⟩ := dispatch_surplus s p hsur
  have h0 : ¬ (0 < (chargeFromGrid s).exportDemand) := by
    rw [chargeFromGrid_eq]; simp only [hexp, lt_irrefl, not_false_eq_true]
  rw [hE, hB, surplusCase_gridExport, surplusCase_battery, if_neg h0, if_neg h0]
  exact ⟨rfl, rfl⟩

/-- C6, as stated, fails: battery 99 %, no export demand, no manual charge, generation
1000 kW, no load.  The surplus of 1000 kW is worth 2 %, and the state of charge after the tick
is 100, not 99 + 1000 / 500 = 101. -/
theorem surplus_charge_counterexample :
    (sample 99 20 50 0 0 0).state.load ≤ (1000 : ℚ) + 0 ∧
    (sample 99 20 50 0 0 0).state.exportDemand = 0 ∧
    (sample 99 20 50 0 0 0).state.gridImportAmount = 0 ∧
    (sample 99 20 50 0 0 0).state.battery < 100 ∧
    (updateFromBackend (sample 99 20 50 0 0 0) ⟨1000, 0, 0⟩).state.battery = 100 ∧
    (updateFromBackend (sample 99 20 50 0 0 0) ⟨1000, 0, 0⟩).state.battery
      ≠ (sample 99 20 50 0 0 0).state.battery + (1000 + 0 - 0) / 500 := by
  obtain ⟨-, hB⟩ := dispatch_surplus_no_export (sample 99 20 50 0 0 0).state ⟨1000, 0, 0⟩
    (by norm_num [sample_state]) (by norm_num [sample_state])
  rw [(updateFromBackend_outputs _ _).1, hB]
  norm_num [chargeFromGrid_sample, sample_state]

/-- C6, amended. In a surplus tick with `exportDemand = 0`, no manual charge and the state of
charge below 100 before the tick, `gridExport = 0` and the state of charge after the tick is
`min(100, before + surplus / 500)`: the battery takes `surplus / 500` up to the cap of 100. -/
theorem surplus_charge (e : EnergyManagementSystem) (p : Predictions)
    (hsur : e.state.load ≤ p.solar_gen + p.wind_gen) (hexp : e.state.exportDemand = 0)
    (hman : e.state.gridImportAmount = 0) (hb : e.state.battery < 100) :
    (updateFromBackend e p).state.gridExport = 0 ∧
    (updateFromBackend e p).state.battery
      = min 100 (e.state.battery + (p.solar_gen + p.wind_gen - e.state.load) / 500) := by
  obtain ⟨hE, hB⟩ := dispatch_surplus_no_export e.state p hsur hexp
  have h1 : (chargeFromGrid e.state).battery = e.state.battery := by
    rw [chargeFromGrid_eq]
    exact if_neg (fun hc => by linarith [hc.1])
  rw [h1, if_pos hb] at hE hB
  rw [(updateFromBackend_outputs e p).1, (updateFromBackend_outputs e p).2.2]
  exact ⟨hE, hB⟩

/-- C6, amended, at battery 55 %, generation 400 kW, load 200 kW: no export and the battery
goes to 55.4 %. -/
theorem surplus_charge_witness :
    (updateFromBackend (sample 55 20 50 200 0 0) ⟨300, 100, 0⟩).state.gridExport = 0 ∧
    (updateFromBackend (sample 55 20 50 200 0 0) ⟨300, 100, 0⟩).state.battery = 277 / 5 := by
  have h := surplus_charge (sample 55 20 50 200 0 0) ⟨300, 100, 0⟩
    (by norm_num [sample_state]) (by norm_num [sample_state])
    (by norm_num [sample_state]) (by norm_num [sample_state])
  norm_num [sample_state] at h
  exact h

/-- C7. In a surplus tick with `exportDemand = 0`, with `b1` the state of charge after the
manual-charge step: if `b1 < 100` then `gridExport = 0` and the new state of charge is
`min(100, b1 + surplus / 500)`; if `b1 = 100` then `gridExport = surplus` and the state of
charge stays 100. -/
theorem surplus_no_export_demand (e : EnergyManagementSystem) (p : Predictions)
    (hsur : e.state.load ≤ p.solar_gen + p.wind_gen) (hexp : e.state.exportDemand = 0) :
    ((chargeFromGrid e.state).battery < 100 →
      (updateFromBackend e p).state.gridExport = 0 ∧
      (updateFromBackend e p).state.battery
        = min 100 ((chargeFromGrid e.state).battery
            + (p.solar_gen + p.wind_gen - e.state.load) / 500)) ∧
    ((chargeFromGrid e.state).battery = 100 →
      (updateFromBackend e p).state.gridExport = p.solar_gen + p.wind_gen - e.state.load ∧
      (updateFromBackend e p).state.battery = 100) := by
  obtain ⟨hE, hB⟩ := dispatch_surplus_no_export e.state p hsur hexp
  rw [(updateFromBackend_outputs e p).1, (updateFromBackend_outputs e p).2.2]
  constructor
  · intro h
    rw [if_pos h] at hE hB
    exact ⟨hE, hB⟩
  · intro h
    have hn : ¬ (chargeFromGrid e.state).battery < 100 := by rw [h]; exact lt_irrefl _
    rw [if_neg hn] at hE hB
    exact ⟨hE, hB.trans h⟩

/-- C7 at scenario D: battery 100 %, no export demand, surplus 80 kW (generation 280 kW, load
200 kW) gives `gridExport = 80` and the battery stays at 100 %. -/
theorem surplus_no_export_demand_witness :
    (updateFromBackend (sample 100 20 50 200 0 0) ⟨200, 80, 0⟩).state.gridExport = 80 ∧
    (updateFromBackend (sample 100 20 50 200 0 0) ⟨200, 80, 0⟩).state.battery = 100 := by
  have h := (surplus_no_export_demand (sample 100 20 50 200 0 0) ⟨200, 80, 0⟩
    (by norm_num [sample_state]) (by norm_num [sample_state])).2
    (by norm_num [chargeFromGrid_sample, sample_state])
  norm_num [sample_state] at h
  exact h

/-- C8. A zero-input tick is a no-op on the engine: with `solarGen = windGen = load = 0`,
`exportDemand = 0` and `manualGridChargeAmount = 0`, the state of charge is unchanged and
`gridImport = gridExport = 0`, for every state of charge, reserve and battery priority. -/
theorem zero_input_tick (e : EnergyManagementSystem) (p : Predictions)
    (hsolar : p.solar_gen = 0) (hwind : p.wind_gen = 0) (hload : e.state.load = 0)
    (hexp : e.state.exportDemand = 0) (hman : e.state.gridImportAmount = 0) :
    (updateFromBackend e p).state.battery = e.state.battery ∧
    (updateFromBackend e p).state.gridImport = 0 ∧
    (updateFromBackend e p).state.gridExport = 0 := by
  have hsur : e.state.load ≤ p.solar_gen + p.wind_gen := by rw [hsolar, hwind, hload]; norm_num
  obtain ⟨hE, hB⟩ := dispatch_surplus_no_export e.state p hsur hexp
  have h1 : (chargeFromGrid e.state).battery = e.state.battery := by
    rw [chargeFromGrid_eq]
    exact if_neg (fun hc => by linarith [hc.1])
  have h0 : p.solar_gen + p.wind_gen - e.state.load = 0 := by rw [hsolar, hwind, hload]; norm_num
  rw [h1, h0] at hE hB
  rw [(updateFromBackend_outputs e p).1, (updateFromBackend_outputs e p).2.1,
    (updateFromBackend_outputs e p).2.2, hE, hB, (dispatch_surplus e.state p hsur).2.2]
  refine ⟨?_, rfl, ?_⟩
  · split_ifs with h
    · rw [zero_div, add_zero]; exact min_eq_right (le_of_lt h)
    · rfl
  · split_ifs <;> rfl

/-- C8 at battery 55 %, reserve 20 %, priority 50 %. -/
theorem zero_input_tick_witness :
    (updateFromBackend (sample 55 20 50 0 0 0) ⟨0, 0, 0⟩).state.battery = 55 ∧
    (updateFromBackend (sample 55 20 50 0 0 0) ⟨0, 0, 0⟩).state.gridImport = 0 ∧
    (updateFromBackend (sample 55 20 50 0 0 0) ⟨0, 0, 0⟩).state.gridExport = 0 :=
  zero_input_tick (sample 55 20 50 0 0 0) ⟨0, 0, 0⟩ rfl rfl rfl rfl rfl

/-- C10. With `batteryPriority ≤ 100` (part of the input contract), `gridImport ≥ 0` and
`gridExport ≥ 0` after `updateFromBackend`, for every generation, load, export demand,
reserve and state of charge. -/
theorem grid_flows_nonneg (e : EnergyManagementSystem) (p : Predictions)
    (hp : e.state.batteryPriority ≤ 100) :
    0 ≤ (updateFromBackend e p).state.gridImport ∧
    0 ≤ (updateFromBackend e p).state.gridExport := by
  rw [(updateFromBackend_outputs e p).2.1, (updateFromBackend_outputs e p).2.2]
  exact ⟨dispatch_gridImport_nonneg e.state p hp, dispatch_gridExport_nonneg e.state p⟩

/-- C10 at scenario A with an export demand of 10 kW. -/
theorem grid_flows_nonneg_witness :
    0 ≤ (updateFromBackend (sample 55 20 50 200 10 0) ⟨100, 50, 0⟩).state.gridImport ∧
    0 ≤ (updateFromBackend (sample 55 20 50 200 10 0) ⟨100, 50, 0⟩).state.gridExport :=
  grid_flows_nonneg (sample 55 20 50 200 10 0) ⟨100, 50, 0⟩ (by norm_num [sample_state])

/-! ### The ledger counters after the accrual -/

theorem jsOr_self (a : ℚ) : jsOr a a = a := by
  unfold jsOr; split_ifs <;> rfl

theorem updatePerformanceMetrics_counters (e : EnergyManagementSystem) :
    (updatePerformanceMetrics e).state.costSavingsTotal =
        (if e.state.costSavingsTotal = 0 then savedOrZero e.localStorage.costSavingsTotal
          else e.state.costSavingsTotal)
        + jsOr e.state.totalGeneration (e.state.solar + e.state.wind) * 5.3 ∧
    (updatePerformanceMetrics e).state.co2ReducedTotal =
        (if e.state.co2ReducedTotal = 0 then savedOrZero e.localStorage.co2ReducedTotal
          else e.state.co2ReducedTotal)
        + jsOr e.state.totalGeneration (e.state.solar + e.state.wind) * 0.91 ∧
    (updatePerformanceMetrics e).localStorage.costSavingsTotal
      = some (updatePerformanceMetrics e).state.costSavingsTotal ∧
    (updatePerformanceMetrics e).localStorage.co2ReducedTotal
      = some (updatePerformanceMetrics e).state.co2ReducedTotal := by
  unfold updatePerformanceMetrics
  dsimp only
  split_ifs <;> exact ⟨rfl, rfl, rfl, rfl⟩

theorem updateCumulativeExportMetrics_counters (e : EnergyManagementSystem) :
    (updateCumulativeExportMetrics e).state.gridExportTotal =
        (if 0 < e.state.gridExport then e.state.gridExportTotal + e.state.gridExport
          else e.state.gridExportTotal) ∧
    (updateCumulativeExportMetrics e).state.gridExportIncome =
        (if 0 < e.state.gridExport then
          e.state.gridExportIncome + e.state.gridExport * gridRate e
          else e.state.gridExportIncome) ∧
    (updateCumulativeExportMetrics e).totalNetIncome =
        (updateCumulativeExportMetrics e).state.gridExportIncome
          - e.state.gridImportCostTotal := by
  simp only [updateCumulativeExportMetrics, jsOr_zero, gt_iff_lt]
  split_ifs <;> exact ⟨rfl, rfl, rfl⟩

theorem updateGridImportCosts_counters (e : EnergyManagementSystem) :
    (updateGridImportCosts e).state.gridImportCostTotal =
        (if e.state.gridImportCostTotal = 0 then
          savedOrZero e.localStorage.gridImportCostTotal
          else e.state.gridImportCostTotal)
        + (e.state.gridImport + e.state.gridImportAmount) * 5.4 ∧
    (updateGridImportCosts e).localStorage.gridImportCostTotal
      = some (updateGridImportCosts e).state.gridImportCostTotal := by
  unfold updateGridImportCosts
  rw [jsOr_zero, jsOr_zero]
  dsimp only
  split_ifs <;> exact ⟨rfl, rfl⟩

/-- The five counters after `updateKPIs`, in terms of the page it was called on. -/
theorem updateKPIs_counters (e : EnergyManagementSystem) :
    (updateKPIs e).state.costSavingsTotal =
        (if e.state.costSavingsTotal = 0 then savedOrZero e.localStorage.costSavingsTotal
          else e.state.costSavingsTotal)
        + jsOr e.state.totalGeneration (e.state.solar + e.state.wind) * 5.3 ∧
    (updateKPIs e).state.co2ReducedTotal =
        (if e.state.co2ReducedTotal = 0 then savedOrZero e.localStorage.co2ReducedTotal
          else e.state.co2ReducedTotal)
        + jsOr e.state.totalGeneration (e.state.solar + e.state.wind) * 0.91 ∧
    (updateKPIs e).state.gridExportTotal =
        (if 0 < e.state.gridExport then e.state.gridExportTotal + e.state.gridExport
          else e.state.gridExportTotal) ∧
    (updateKPIs e).state.gridExportIncome =
        (if 0 < e.state.gridExport then
          e.state.gridExportIncome + e.state.gridExport * gridRate e
          else e.state.gridExportIncome) ∧
    (updateKPIs e).state.gridImportCostTotal =
        (if e.state.gridImportCostTotal = 0 then
          savedOrZero e.localStorage.gridImportCostTotal
          else e.state.gridImportCostTotal)
        + (e.state.gridImport + e.state.gridImportAmount) * 5.4 := by
  obtain ⟨p1, p2, p3, p4, p5, p6, p7, p8, p9⟩ := updatePerformanceMetrics_frame e
  obtain ⟨c1, c2, c3, c4, c5, c6, c7, c8, c9, c10⟩ :=
    updateCumulativeExportMetrics_frame (updatePerformanceMetrics e)
  obtain ⟨g1, g2, g3, g4, g5, g6, g7, g8, g9⟩ :=
    updateGridImportCosts_frame (updateCumulativeExportMetrics (updatePerformanceMetrics e))
  obtain ⟨a1, a2, -, -⟩ := updatePerformanceMetrics_counters e
  obtain ⟨b1, b2, -⟩ := updateCumulativeExportMetrics_counters (updatePerformanceMetrics e)
  obtain ⟨d1, -⟩ :=
    updateGridImportCosts_counters (updateCumulativeExportMetrics (updatePerformanceMetrics e))
  simp only [updateKPIs, updateExportEarnings, updateGridImportDisplay]
  refine ⟨?_, ?_, ?_, ?_, ?_⟩
  · rw [g4, c5, a1]
  · rw [g5, c6, a2]
  · rw [g6, b1, p3, p5]
  · rw [g7, b2, p3, p6, gridRate, gridRate, p8]
  · rw [d1, c7, c8, c2, c4, p7, p9, p2, p4]

/-- After `updateKPIs` the three reloadable counters are mirrored in `localStorage`. -/
theorem updateKPIs_synced (e : EnergyManagementSystem) : Synced (updateKPIs e) := by
  obtain ⟨-, -, -, -, -, -, -, g8, g9⟩ :=
    updateGridImportCosts_frame (updateCumulativeExportMetrics (updatePerformanceMetrics e))
  obtain ⟨-, -, -, -, c5, c6, -, -, c9, c10⟩ :=
    updateCumulativeExportMetrics_frame (updatePerformanceMetrics e)
  obtain ⟨g4, g5⟩ : _ ∧ _ := ⟨(updateGridImportCosts_frame
    (updateCumulativeExportMetrics (updatePerformanceMetrics e))).2.2.2.1,
    (updateGridImportCosts_frame
    (updateCumulativeExportMetrics (updatePerformanceMetrics e))).2.2.2.2.1⟩
  obtain ⟨-, -, a3, a4⟩ := updatePerformanceMetrics_counters e
  obtain ⟨-, d2⟩ :=
    updateGridImportCosts_counters (updateCumulativeExportMetrics (updatePerformanceMetrics e))
  simp only [Synced, updateKPIs, updateExportEarnings, updateGridImportDisplay]
  refine ⟨?_, ?_, ?_⟩
  · rw [g8, c9, a3, g4, c5]; rfl
  · rw [g9, c10, a4, g5, c6]; rfl
  · rw [d2]; rfl

/-- What the engine part of `updateFromBackend` records of its inputs, and the fields it
leaves alone. -/
theorem dispatch_frame (s : State) (p : Predictions) :
    (dispatch s p).totalGeneration = p.solar_gen + p.wind_gen ∧
    (dispatch s p).solar = p.solar_gen ∧ (dispatch s p).wind = p.wind_gen ∧
    (dispatch s p).gridImportAmount = s.gridImportAmount ∧
    (dispatch s p).costSavingsTotal = s.costSavingsTotal ∧
    (dispatch s p).co2ReducedTotal = s.co2ReducedTotal ∧
    (dispatch s p).gridExportTotal = s.gridExportTotal ∧
    (dispatch s p).gridExportIncome = s.gridExportIncome ∧
    (dispatch s p).gridImportCostTotal = s.gridImportCostTotal := by
  unfold dispatch
  dsimp only
  split_ifs
  · rw [deficitCase_frame, chargeFromGrid_eq]
    exact ⟨rfl, rfl, rfl, rfl, rfl, rfl, rfl, rfl, rfl⟩
  · rw [surplusCase_frame, chargeFromGrid_eq]
    exact ⟨rfl, rfl, rfl, rfl, rfl, rfl, rfl, rfl, rfl⟩

/-- The five counters after `updateFromBackend`, in terms of the page before the tick and of
the grid flows the engine computed. -/
theorem updateFromBackend_counters (e : EnergyManagementSystem) (p : Predictions) :
    (updateFromBackend e p).state.costSavingsTotal =
        (if e.state.costSavingsTotal = 0 then savedOrZero e.localStorage.costSavingsTotal
          else e.state.costSavingsTotal) + (p.solar_gen + p.wind_gen) * 5.3 ∧
    (updateFromBackend e p).state.co2ReducedTotal =
        (if e.state.co2ReducedTotal = 0 then savedOrZero e.localStorage.co2ReducedTotal
          else e.state.co2ReducedTotal) + (p.solar_gen + p.wind_gen) * 0.91 ∧
    (updateFromBackend e p).state.gridExportTotal =
        (if 0 < (dispatch e.state p).gridExport then
          e.state.gridExportTotal + (dispatch e.state p).gridExport
          else e.state.gridExportTotal) ∧
    (updateFromBackend e p).state.gridExportIncome =
        (if 0 < (dispatch e.state p).gridExport then
          e.state.gridExportIncome + (dispatch e.state p).gridExport * gridRate e
          else e.state.gridExportIncome) ∧
    (updateFromBackend e p).state.gridImportCostTotal =
        (if e.state.gridImportCostTotal = 0 then
          savedOrZero e.localStorage.gridImportCostTotal
          else e.state.gridImportCostTotal)
        + ((dispatch e.state p).gridImport + e.state.gridImportAmount) * 5.4 := by
  obtain ⟨f1, f2, f3, f4, f5, f6, f7, f8, f9⟩ := dispatch_frame e.state p
  unfold updateFromBackend
  refine ⟨?_, ?_, ?_, ?_, ?_⟩
  · rw [(updateKPIs_counters _).1]
    show (if (dispatch e.state p).costSavingsTotal = 0 then _
      else (dispatch e.state p).costSavingsTotal)
      + jsOr (dispatch e.state p).totalGeneration
          ((dispatch e.state p).solar + (dispatch e.state p).wind) * 5.3 = _
    rw [f1, f2, f3, f5, jsOr_self]
  · rw [(updateKPIs_counters _).2.1]
    show (if (dispatch e.state p).co2ReducedTotal = 0 then _
      else (dispatch e.state p).co2ReducedTotal)
      + jsOr (dispatch e.state p).totalGeneration
          ((dispatch e.state p).solar + (dispatch e.state p).wind) * 0.91 = _
    rw [f1, f2, f3, f6, jsOr_self]
  · rw [(updateKPIs_counters _).2.2.1]
    show (if 0 < (dispatch e.state p).gridExport then
      (dispatch e.state p).gridExportTotal + (dispatch e.state p).gridExport
      else (dispatch e.state p).gridExportTotal) = _
    rw [f7]
  · rw [(updateKPIs_counters _).2.2.2.1]
    show (if 0 < (dispatch e.state p).gridExport then
      (dispatch e.state p).gridExportIncome + (dispatch e.state p).gridExport * gridRate e
      else (dispatch e.state p).gridExportIncome) = _
    rw [f8]
  · rw [(updateKPIs_counters _).2.2.2.2]
    show (if (dispatch e.state p).gridImportCostTotal = 0 then _
      else (dispatch e.state p).gridImportCostTotal)
      + ((dispatch e.state p).gridImport + (dispatch e.state p).gridImportAmount) * 5.4 = _
    rw [f9, f4]

theorem updateFromBackend_synced (e : EnergyManagementSystem) (p : Predictions) :
    Synced (updateFromBackend e p) :=
  updateKPIs_synced _

theorem runTicks_append (e : EnergyManagementSystem) (ts : List TickInput) (t : TickInput) :
    runTicks e (ts ++ [t]) = tick (runTicks e ts) t := by
  simp only [runTicks, List.foldl_append, List.foldl_cons, List.foldl_nil]

theorem runTicks_synced (e : EnergyManagementSystem) (ts : List TickInput) (h : Synced e) :
    Synced (runTicks e ts) := by
  rcases List.eq_nil_or_concat ts with rfl | ⟨ts0, t, rfl⟩
  · exact h
  · rw [List.concat_eq_append, runTicks_append]
    exact updateFromBackend_synced _ _

/-- One tick does not lower a counter when `localStorage` mirrors the counters, generation,
manual charge and grid rate are non-negative and `batteryPriority ≤ 100`. -/
theorem tick_counters_le (e : EnergyManagementSystem) (t : TickInput) (hs : Synced e)
    (hsolar : 0 ≤ t.predictions.solar_gen) (hwind : 0 ≤ t.predictions.wind_gen)
    (hman : 0 ≤ t.gridImportAmount) (hrate : 0 ≤ parseGridRate t.gridRateInput)
    (hp : t.batteryPriority ≤ 100) :
    e.state.costSavingsTotal ≤ (tick e t).state.costSavingsTotal ∧
    e.state.co2ReducedTotal ≤ (tick e t).state.co2ReducedTotal ∧
    e.state.gridExportTotal ≤ (tick e t).state.gridExportTotal ∧
    e.state.gridExportIncome ≤ (tick e t).state.gridExportIncome ∧
    e.state.gridImportCostTotal ≤ (tick e t).state.gridImportCostTotal := by
  obtain ⟨s1, s2, s3⟩ := hs
  obtain ⟨k1, k2, k3, k4, k5⟩ := updateFromBackend_counters (applyControls e t) t.predictions
  have hgi := dispatch_gridImport_nonneg (applyControls e t).state t.predictions hp
  have hgen : 0 ≤ t.predictions.solar_gen + t.predictions.wind_gen := by linarith
  unfold tick
  refine ⟨?_, ?_, ?_, ?_, ?_⟩
  · rw [k1]
    show e.state.costSavingsTotal ≤ (if e.state.costSavingsTotal = 0 then
      savedOrZero e.localStorage.costSavingsTotal else e.state.costSavingsTotal) + _
    have h53 : 0 ≤ (t.predictions.solar_gen + t.predictions.wind_gen) * 5.3 :=
      mul_nonneg hgen (by norm_num)
    split_ifs with h0
    · rw [s1]; linarith
    · linarith
  · rw [k2]
    show e.state.co2ReducedTotal ≤ (if e.state.co2ReducedTotal = 0 then
      savedOrZero e.localStorage.co2ReducedTotal else e.state.co2ReducedTotal) + _
    have h91 : 0 ≤ (t.predictions.solar_gen + t.predictions.wind_gen) * 0.91 :=
      mul_nonneg hgen (by norm_num)
    split_ifs with h0
    · rw [s2]; linarith
    · linarith
  · rw [k3]
    show e.state.gridExportTotal ≤ (if 0 < _ then e.state.gridExportTotal + _
      else e.state.gridExportTotal)
    split_ifs with h0
    · linarith
    · exact le_refl _
  · rw [k4]
    show e.state.gridExportIncome ≤ (if 0 < _ then
      e.state.gridExportIncome + _ * parseGridRate t.gridRateInput
      else e.state.gridExportIncome)
    split_ifs with h0
    · have := mul_nonneg (le_of_lt h0) hrate
      linarith
    · exact le_refl _
  · rw [k5]
    show e.state.gridImportCostTotal ≤ (if e.state.gridImportCostTotal = 0 then
      savedOrZero e.localStorage.gridImportCostTotal else e.state.gridImportCostTotal)
      + (_ + t.gridImportAmount) * 5.4
    have h54 : 0 ≤ ((dispatch (applyControls e t).state t.predictions).gridImport
        + t.gridImportAmount) * 5.4 := mul_nonneg (by linarith) (by norm_num)
    split_ifs with h0
    · rw [s3]; linarith
    · linarith

/-- C9. Across any finite sequence of ticks, started from a page whose `localStorage` mirrors
its counters (as the constructor leaves it), each ledger counter (`costSavingsTotal`,
`co2ReducedTotal`, `gridExportTotal`, `gridExportIncome`, `gridImportCostTotal`) is
non-decreasing from one tick to the next: its value after the ticks `ts` is at most its value
after one more tick `t` with in-contract inputs. -/
theorem ledger_counters_nondecreasing (e : EnergyManagementSystem) (ts : List TickInput)
    (t : TickInput) (hsync : Synced e) (ht : t.InContract) :
    (runTicks e ts).state.costSavingsTotal
      ≤ (runTicks e (ts ++ [t])).state.costSavingsTotal ∧
    (runTicks e ts).state.co2ReducedTotal
      ≤ (runTicks e (ts ++ [t])).state.co2ReducedTotal ∧
    (runTicks e ts).state.gridExportTotal
      ≤ (runTicks e (ts ++ [t])).state.gridExportTotal ∧
    (runTicks e ts).state.gridExportIncome
      ≤ (runTicks e (ts ++ [t])).state.gridExportIncome ∧
    (runTicks e ts).state.gridImportCostTotal
      ≤ (runTicks e (ts ++ [t])).state.gridImportCostTotal := by
  rw [runTicks_append]
  obtain ⟨h1, h2, -, -, h5, h6, -, h8, -, -⟩ := ht
  exact tick_counters_le (runTicks e ts) t (runTicks_synced e ts hsync) h1 h2 h5 h6 h8

/-- C9 on the fresh page, after the deficit tick of scenario A, for one more tick: the surplus
tick of scenario C with a manual charge of 100 kW and a grid rate of 6.5. -/
theorem ledger_counters_nondecreasing_witness :
    (runTicks (new ⟨none, none, none, none, none⟩ none)
        [⟨⟨100, 50, 0⟩, 200, 50, 20, 0, 0, none⟩]).state.costSavingsTotal
      ≤ (runTicks (new ⟨none, none, none, none, none⟩ none)
        ([⟨⟨100, 50, 0⟩, 200, 50, 20, 0, 0, none⟩]
          ++ [⟨⟨300, 100, 0⟩, 200, 50, 20, 50, 100, some 6.5⟩])).state.costSavingsTotal ∧
    (runTicks (new ⟨none, none, none, none, none⟩ none)
        [⟨⟨100, 50, 0⟩, 200, 50, 20, 0, 0, none⟩]).state.co2ReducedTotal
      ≤ (runTicks (new ⟨none, none, none, none, none⟩ none)
        ([⟨⟨100, 50, 0⟩, 200, 50, 20, 0, 0, none⟩]
          ++ [⟨⟨300, 100, 0⟩, 200, 50, 20, 50, 100, some 6.5⟩])).state.co2ReducedTotal ∧
    (runTicks (new ⟨none, none, none, none, none⟩ none)
        [⟨⟨100, 50, 0⟩, 200, 50, 20, 0, 0, none⟩]).state.gridExportTotal
      ≤ (runTicks (new ⟨none, none, none, none, none⟩ none)
        ([⟨⟨100, 50, 0⟩, 200, 50, 20, 0, 0, none⟩]
          ++ [⟨⟨300, 100, 0⟩, 200, 50, 20, 50, 100, some 6.5⟩])).state.gridExportTotal ∧
    (runTicks (new ⟨none, none, none, none, none⟩ none)
        [⟨⟨100, 50, 0⟩, 200, 50, 20, 0, 0, none⟩]).state.gridExportIncome
      ≤ (runTicks (new ⟨none, none, none, none, none⟩ none)
        ([⟨⟨100, 50, 0⟩, 200, 50, 20, 0, 0, none⟩]
          ++ [⟨⟨300, 100, 0⟩, 200, 50, 20, 50, 100, some 6.5⟩])).state.gridExportIncome ∧
    (runTicks (new ⟨none, none, none, none, none⟩ none)
        [⟨⟨100, 50, 0⟩, 200, 50, 20, 0, 0, none⟩]).state.gridImportCostTotal
      ≤ (runTicks (new ⟨none, none, none, none, none⟩ none)
        ([⟨⟨100, 50, 0⟩, 200, 50, 20, 0, 0, none⟩]
          ++ [⟨⟨300, 100, 0⟩, 200, 50, 20, 50, 100, some 6.5⟩])).state.gridImportCostTotal :=
  ledger_counters_nondecreasing (new ⟨none, none, none, none, none⟩ none)
    [⟨⟨100, 50, 0⟩, 200, 50, 20, 0, 0, none⟩]
    ⟨⟨300, 100, 0⟩, 200, 50, 20, 50, 100, some 6.5⟩
    (by norm_num [Synced, new, savedOrZero, jsOr])
    (by norm_num [TickInput.InContract, parseGridRate])

/-! ### The branches with an export demand -/

/-- The surplus branch when there is an export demand (lines 140-199), in terms of the state
of charge that STEP 1 leaves. -/
theorem dispatch_surplus_export (s : State) (p : Predictions)
    (hsur : s.load ≤ p.solar_gen + p.wind_gen) (hexp : 0 < s.exportDemand) :
    (dispatch s p).gridExport =
        (if (chargeFromGrid s).battery ≤ s.reserve then 0
        else if s.exportDemand ≤ p.solar_gen + p.wind_gen - s.load then s.exportDemand
        else if s.exportDemand - (p.solar_gen + p.wind_gen - s.load)
            ≤ ((chargeFromGrid s).battery - s.reserve) * 500 then s.exportDemand
        else p.solar_gen + p.wind_gen - s.load
          + ((chargeFromGrid s).battery - s.reserve) * 500) ∧
    (dispatch s p).battery =
        (if (chargeFromGrid s).battery ≤ s.reserve then
          if (chargeFromGrid s).battery < 100 then
            min 100 ((chargeFromGrid s).battery + (p.solar_gen + p.wind_gen - s.load) / 500)
          else (chargeFromGrid s).battery
        else if s.exportDemand ≤ p.solar_gen + p.wind_gen - s.load then
          if 0 < p.solar_gen + p.wind_gen - s.load - s.exportDemand
              ∧ (chargeFromGrid s).battery < 100 then
            min 100 ((chargeFromGrid s).battery
              + (p.solar_gen + p.wind_gen - s.load - s.exportDemand) / 500)
          else (chargeFromGrid s).battery
        else if s.exportDemand - (p.solar_gen + p.wind_gen - s.load)
            ≤ ((chargeFromGrid s).battery - s.reserve) * 500 then
          max s.reserve ((chargeFromGrid s).battery
            - (s.exportDemand - (p.solar_gen + p.wind_gen - s.load)) / 500)
        else s.reserve) := by
  obtain ⟨hE, hB, -⟩ := dispatch_surplus s p hsur
  have h0 : 0 < (chargeFromGrid s).exportDemand := by
    rw [chargeFromGrid_eq]; exact hexp
  have hr : (chargeFromGrid s).reserve = s.reserve := by rw [chargeFromGrid_eq]
  have he : (chargeFromGrid s).exportDemand = s.exportDemand := by rw [chargeFromGrid_eq]
  rw [hE, hB, surplusCase_gridExport, surplusCase_battery, if_pos h0, if_pos h0, hr, he]
  exact ⟨rfl, rfl⟩

/-! ### The claims, continued -/

/-- C11. In a deficit tick, with `b1` the state of charge when the deficit branch starts: if
`exportDemand > 0` and `b1 > reserve` then `gridExport = min(exportDemand, (b1 - reserve) * 500)`;
otherwise `gridExport = 0`. -/
theorem deficit_export (e : EnergyManagementSystem) (p : Predictions)
    (hdef : p.solar_gen + p.wind_gen < e.state.load) :
    (updateFromBackend e p).state.gridExport =
      if 0 < e.state.exportDemand ∧ e.state.reserve < (chargeFromGrid e.state).battery then
        min e.state.exportDemand (((chargeFromGrid e.state).battery - e.state.reserve) * 500)
      else 0 := by
  rw [(updateFromBackend_outputs e p).2.2]
  exact (dispatch_deficit e.state p hdef).1

/-- C11 at scenario A with an export demand of 10 kW: `gridExport = min(10, 35 * 500) = 10`. -/
theorem deficit_export_witness :
    (updateFromBackend (sample 55 20 50 200 10 0) ⟨100, 50, 0⟩).state.gridExport = 10 := by
  have h := deficit_export (sample 55 20 50 200 10 0) ⟨100, 50, 0⟩
    (by norm_num [sample_state])
  norm_num [chargeFromGrid_sample, sample_state] at h
  exact h

/-- C12. In a deficit tick in which the state of charge `b1` at the start of the deficit
branch is above reserve, the new state of charge is
`max(reserve, b1 - (deficit * batteryPriority / 100 + exportFromBattery) / 500)`, where
`exportFromBattery` is `min(exportDemand, (b1 - reserve) * 500)` when `exportDemand > 0` and 0
otherwise. -/
theorem deficit_discharge (e : EnergyManagementSystem) (p : Predictions)
    (hdef : p.solar_gen + p.wind_gen < e.state.load)
    (habove : e.state.reserve < (chargeFromGrid e.state).battery) :
    (updateFromBackend e p).state.battery =
      max e.state.reserve ((chargeFromGrid e.state).battery
        - ((e.state.load - (p.solar_gen + p.wind_gen)) * e.state.batteryPriority / 100
            + (if 0 < e.state.exportDemand then
                min e.state.exportDemand
                  (((chargeFromGrid e.state).battery - e.state.reserve) * 500)
              else 0)) / 500) := by
  obtain ⟨hE, hB, -⟩ := dispatch_deficit e.state p hdef
  rw [(updateFromBackend_outputs e p).1, hB, if_pos habove, hE]
  have hx : (e.state.load - (p.solar_gen + p.wind_gen)) * (e.state.batteryPriority / 100)
      = (e.state.load - (p.solar_gen + p.wind_gen)) * e.state.batteryPriority / 100 := by ring
  rw [hx]
  by_cases hed : 0 < e.state.exportDemand
  · rw [if_pos ⟨hed, habove⟩, if_pos hed]
  · rw [if_neg (fun hc => hed hc.1), if_neg hed]

/-- C12 at scenario A: battery 55 %, reserve 20 %, priority 50 %, solar 100 kW, wind 50 kW,
load 200 kW, no export demand gives `gridImport = 25` and the battery at 54.95 %. -/
theorem deficit_discharge_witness :
    (updateFromBackend (sample 55 20 50 200 0 0) ⟨100, 50, 0⟩).state.battery = 54.95 ∧
    (updateFromBackend (sample 55 20 50 200 0 0) ⟨100, 50, 0⟩).state.gridImport = 25 := by
  have h := deficit_discharge (sample 55 20 50 200 0 0) ⟨100, 50, 0⟩
    (by norm_num [sample_state]) (by norm_num [chargeFromGrid_sample, sample_state])
  norm_num [chargeFromGrid_sample, sample_state] at h
  obtain ⟨-, -, hG⟩ := dispatch_deficit (sample 55 20 50 200 0 0).state ⟨100, 50, 0⟩
    (by norm_num [sample_state])
  rw [← (updateFromBackend_outputs _ _).1, h] at hG
  rw [(updateFromBackend_outputs _ _).2.1, hG, h]
  norm_num [sample_state]

/-- C13. In a surplus tick with `exportDemand > 0` and the state of charge `b1 ≤ reserve` at
the start of the surplus branch (`b1` within the range `≤ 100` of the data model),
`gridExport = 0` and the entire surplus charges the battery: the new state of charge is
`min(100, b1 + surplus / 500)`, whatever the surplus is compared with `exportDemand`. -/
theorem surplus_export_stopped_at_reserve (e : EnergyManagementSystem) (p : Predictions)
    (hsur : e.state.load ≤ p.solar_gen + p.wind_gen) (hexp : 0 < e.state.exportDemand)
    (hlow : (chargeFromGrid e.state).battery ≤ e.state.reserve)
    (hrange : (chargeFromGrid e.state).battery ≤ 100) :
    (updateFromBackend e p).state.gridExport = 0 ∧
    (updateFromBackend e p).state.battery
      = min 100 ((chargeFromGrid e.state).battery
          + (p.solar_gen + p.wind_gen - e.state.load) / 500) := by
  obtain ⟨hE, hB⟩ := dispatch_surplus_export e.state p hsur hexp
  rw [if_pos hlow] at hE hB
  rw [(updateFromBackend_outputs e p).1, (updateFromBackend_outputs e p).2.2, hB]
  refine ⟨hE, ?_⟩
  split_ifs with h
  · rfl
  · have h100 : (chargeFromGrid e.state).battery = 100 := le_antisymm hrange (not_lt.mp h)
    have hs : 0 ≤ (p.solar_gen + p.wind_gen - e.state.load) / 500 :=
      div_nonneg (by linarith) (by norm_num)
    rw [h100]
    exact (min_eq_left (by linarith)).symm

/-- C13 at battery 20 %, reserve 20 %, export demand 50 kW and a surplus of 200 kW (more than
the export demand): nothing is exported and the battery goes to 20.4 %. -/
theorem surplus_export_stopped_at_reserve_witness :
    (updateFromBackend (sample 20 20 50 200 50 0) ⟨300, 100, 0⟩).state.gridExport = 0 ∧
    (updateFromBackend (sample 20 20 50 200 50 0) ⟨300, 100, 0⟩).state.battery = 20.4 := by
  have h := surplus_export_stopped_at_reserve (sample 20 20 50 200 50 0) ⟨300, 100, 0⟩
    (by norm_num [sample_state]) (by norm_num [sample_state])
    (by norm_num [chargeFromGrid_sample, sample_state])
    (by norm_num [chargeFromGrid_sample, sample_state])
  norm_num [chargeFromGrid_sample, sample_state] at h
  exact ⟨h.1, by rw [h.2]; norm_num⟩

/-- C14. In a surplus tick with `exportDemand > 0`, the state of charge `b1 > reserve` at the
start of the surplus branch (`b1` within the range `≤ 100` of the data model) and
`surplus ≥ exportDemand`, `gridExport = exportDemand` and the new state of charge is
`min(100, b1 + (surplus - exportDemand) / 500)`. -/
theorem surplus_covers_export (e : EnergyManagementSystem) (p : Predictions)
    (hexp : 0 < e.state.exportDemand)
    (habove : e.state.reserve < (chargeFromGrid e.state).battery)
    (hrange : (chargeFromGrid e.state).battery ≤ 100)
    (hcover : e.state.exportDemand ≤ p.solar_gen + p.wind_gen - e.state.load) :
    (updateFromBackend e p).state.gridExport = e.state.exportDemand ∧
    (updateFromBackend e p).state.battery
      = min 100 ((chargeFromGrid e.state).battery
          + (p.solar_gen + p.wind_gen - e.state.load - e.state.exportDemand) / 500) := by
  have hsur : e.state.load ≤ p.solar_gen + p.wind_gen := by linarith
  obtain ⟨hE, hB⟩ := dispatch_surplus_export e.state p hsur hexp
  rw [if_neg (not_le.mpr habove), if_pos hcover] at hE hB
  rw [(updateFromBackend_outputs e p).1, (updateFromBackend_outputs e p).2.2, hB]
  refine ⟨hE, ?_⟩
  have hrem : 0 ≤ (p.solar_gen + p.wind_gen - e.state.load - e.state.exportDemand) / 500 :=
    div_nonneg (by linarith) (by norm_num)
  split_ifs with h
  · rfl
  · rw [not_and_or, not_lt, not_lt] at h
    rcases h with h | h
    · have h0 : p.solar_gen + p.wind_gen - e.state.load - e.state.exportDemand = 0 :=
        le_antisymm h (by linarith)
      rw [h0, zero_div, add_zero]
      exact (min_eq_right hrange).symm
    · have h100 : (chargeFromGrid e.state).battery = 100 := le_antisymm hrange h
      rw [h100]
      exact (min_eq_left (by linarith)).symm

/-- C14 at scenario C: solar 300 kW, wind 100 kW, load 200 kW, battery 90 %, reserve 20 %,
export demand 50 kW gives `gridExport = 50` and the battery at 90.3 %. -/
theorem surplus_covers_export_witness :
    (updateFromBackend (sample 90 20 50 200 50 0) ⟨300, 100, 0⟩).state.gridExport = 50 ∧
    (updateFromBackend (sample 90 20 50 200 50 0) ⟨300, 100, 0⟩).state.battery = 90.3 := by
  have h := surplus_covers_export (sample 90 20 50 200 50 0) ⟨300, 100, 0⟩
    (by norm_num [sample_state])
    (by norm_num [chargeFromGrid_sample, sample_state])
    (by norm_num [chargeFromGrid_sample, sample_state])
    (by norm_num [sample_state])
  norm_num [chargeFromGrid_sample, sample_state] at h
  exact ⟨h.1, by rw [h.2]; norm_num⟩

/-- C15. In a surplus tick with `exportDemand > 0`, the state of charge `b1 > reserve` at the
start of the surplus branch and `surplus < exportDemand`, with
`shortfall = exportDemand - surplus` and `maxExportFromBattery = (b1 - reserve) * 500`: if
`shortfall ≤ maxExportFromBattery` then `gridExport = exportDemand` and the new state of
charge is `b1 - shortfall / 500`, which is not below reserve; otherwise
`gridExport = surplus + maxExportFromBattery` and the new state of charge is exactly
`reserve`. -/
theorem surplus_hybrid_export (e : EnergyManagementSystem) (p : Predictions)
    (hsur : e.state.load ≤ p.solar_gen + p.wind_gen) (hexp : 0 < e.state.exportDemand)
    (habove : e.state.reserve < (chargeFromGrid e.state).battery)
    (hshort : p.solar_gen + p.wind_gen - e.state.load < e.state.exportDemand) :
    (e.state.exportDemand - (p.solar_gen + p.wind_gen - e.state.load)
        ≤ ((chargeFromGrid e.state).battery - e.state.reserve) * 500 →
      (updateFromBackend e p).state.gridExport = e.state.exportDemand ∧
      (updateFromBackend e p).state.battery = (chargeFromGrid e.state).battery
        - (e.state.exportDemand - (p.solar_gen + p.wind_gen - e.state.load)) / 500 ∧
      e.state.reserve ≤ (updateFromBackend e p).state.battery) ∧
    (((chargeFromGrid e.state).battery - e.state.reserve) * 500
        < e.state.exportDemand - (p.solar_gen + p.wind_gen - e.state.load) →
      (updateFromBackend e p).state.gridExport = p.solar_gen + p.wind_gen - e.state.load
        + ((chargeFromGrid e.state).battery - e.state.reserve) * 500 ∧
      (updateFromBackend e p).state.battery = e.state.reserve) := by
  obtain ⟨hE, hB⟩ := dispatch_surplus_export e.state p hsur hexp
  rw [if_neg (not_le.mpr habove), if_neg (not_le.mpr hshort)] at hE hB
  rw [(updateFromBackend_outputs e p).1, (updateFromBackend_outputs e p).2.2]
  constructor
  · intro h
    rw [if_pos h] at hE hB
    have hge : e.state.reserve ≤ (chargeFromGrid e.state).battery
        - (e.state.exportDemand - (p.solar_gen + p.wind_gen - e.state.load)) / 500 := by
      linarith
    rw [max_eq_right hge] at hB
    exact ⟨hE, hB, by rw [hB]; exact hge⟩
  · intro h
    rw [if_neg (not_le.mpr h)] at hE hB
    exact ⟨hE, hB⟩

/-- C15 at battery 90 %, reserve 20 %, export demand 50 kW and a surplus of 20 kW (generation
220 kW, load 200 kW): the shortfall of 30 kW is within the battery's 35000 kW, so
`gridExport = 50` and the battery goes to 89.94 %. -/
theorem surplus_hybrid_export_witness :
    (updateFromBackend (sample 90 20 50 200 50 0) ⟨200, 20, 0⟩).state.gridExport = 50 ∧
    (updateFromBackend (sample 90 20 50 200 50 0) ⟨200, 20, 0⟩).state.battery = 89.94 := by
  have h := (surplus_hybrid_export (sample 90 20 50 200 50 0) ⟨200, 20, 0⟩
    (by norm_num [sample_state]) (by norm_num [sample_state])
    (by norm_num [chargeFromGrid_sample, sample_state])
    (by norm_num [sample_state])).1
    (by norm_num [chargeFromGrid_sample, sample_state])
  norm_num [chargeFromGrid_sample, sample_state] at h
  exact ⟨h.1, by rw [h.2.1]; norm_num⟩

/-- C16. In every surplus tick (`solarGen + windGen ≥ load`), whatever the battery level,
reserve, priority, export demand and manual charge, `gridImport = 0`. -/
theorem surplus_no_import (e : EnergyManagementSystem) (p : Predictions)
    (hsur : e.state.load ≤ p.solar_gen + p.wind_gen) :
    (updateFromBackend e p).state.gridImport = 0 := by
  rw [(updateFromBackend_outputs e p).2.1]
  exact (dispatch_surplus e.state p hsur).2.2

/-- C16 at scenario C with a manual grid charge of 100 kW. -/
theorem surplus_no_import_witness :
    (updateFromBackend (sample 90 20 50 200 50 100) ⟨300, 100, 0⟩).state.gridImport = 0 :=
  surplus_no_import (sample 90 20 50 200 50 100) ⟨300, 100, 0⟩ (by norm_num [sample_state])

/-! ### The manual grid charge -/

/-- The engine's outputs depend on the state only through the state of charge that STEP 1
leaves, the reserve, the battery priority, the export demand and the load. -/
theorem dispatch_outputs_congr (s t : State) (p : Predictions)
    (hb : (chargeFromGrid s).battery = (chargeFromGrid t).battery)
    (hr : s.reserve = t.reserve) (hp : s.batteryPriority = t.batteryPriority)
    (he : s.exportDemand = t.exportDemand) (hl : s.load = t.load) :
    (dispatch s p).battery = (dispatch t p).battery ∧
    (dispatch s p).gridImport = (dispatch t p).gridImport ∧
    (dispatch s p).gridExport = (dispatch t p).gridExport := by
  rcases lt_or_le (p.solar_gen + p.wind_gen) s.load with h | h
  · obtain ⟨sE, sB, sG⟩ := dispatch_deficit s p h
    obtain ⟨tE, tB, tG⟩ := dispatch_deficit t p (hl ▸ h)
    have hE : (dispatch s p).gridExport = (dispatch t p).gridExport := by
      rw [sE, tE, hb, hr, he]
    have hB : (dispatch s p).battery = (dispatch t p).battery := by
      rw [sB, tB, hE, hb, hr, hp, hl]
    exact ⟨hB, by rw [sG, tG, hB, hr, hp, hl], hE⟩
  · obtain ⟨sE, sB, sG⟩ := dispatch_surplus s p h
    obtain ⟨tE, tB, tG⟩ := dispatch_surplus t p (hl ▸ h)
    have sr : (chargeFromGrid s).reserve = s.reserve := by rw [chargeFromGrid_eq]
    have tr : (chargeFromGrid t).reserve = t.reserve := by rw [chargeFromGrid_eq]
    have se : (chargeFromGrid s).exportDemand = s.exportDemand := by rw [chargeFromGrid_eq]
    have te : (chargeFromGrid t).exportDemand = t.exportDemand := by rw [chargeFromGrid_eq]
    refine ⟨?_, by rw [sG, tG], ?_⟩
    · rw [sB, tB, surplusCase_battery, surplusCase_battery, sr, tr, se, te, hb, hr, he, hl]
    · rw [sE, tE, surplusCase_gridExport, surplusCase_gridExport, sr, tr, se, te, hb, hr, he,
        hl]

/-- C17. The manual-charge step is applied first and independently of the energy balance:
with a manual grid charge `m > 0` and a state of charge `b < 100`, the battery level,
`gridImport` and `gridExport` after `updateFromBackend` are those of the same tick with `m = 0`
started from the state of charge `min(100, b + m / 500)`; when `b ≥ 100` the step changes
nothing. -/
theorem manual_charge_applied_first (e : EnergyManagementSystem) (p : Predictions) :
    (0 < e.state.gridImportAmount ∧ e.state.battery < 100 →
      (updateFromBackend e p).state.battery
        = (updateFromBackend { e with state := { e.state with
            battery := min 100 (e.state.battery + e.state.gridImportAmount / 500),
            gridImportAmount := 0 } } p).state.battery ∧
      (updateFromBackend e p).state.gridImport
        = (updateFromBackend { e with state := { e.state with
            battery := min 100 (e.state.battery + e.state.gridImportAmount / 500),
            gridImportAmount := 0 } } p).state.gridImport ∧
      (updateFromBackend e p).state.gridExport
        = (updateFromBackend { e with state := { e.state with
            battery := min 100 (e.state.battery + e.state.gridImportAmount / 500),
            gridImportAmount := 0 } } p).state.gridExport) ∧
    (100 ≤ e.state.battery → chargeFromGrid e.state = e.state) := by
  constructor
  · intro h
    rw [(updateFromBackend_outputs e p).1, (updateFromBackend_outputs e p).2.1,
      (updateFromBackend_outputs e p).2.2, (updateFromBackend_outputs _ p).1,
      (updateFromBackend_outputs _ p).2.1, (updateFromBackend_outputs _ p).2.2]
    have hb1 : (chargeFromGrid e.state).battery
        = (chargeFromGrid { e.state with
            battery := min 100 (e.state.battery + e.state.gridImportAmount / 500),
            gridImportAmount := 0 }).battery := by
      rw [chargeFromGrid_eq, chargeFromGrid_eq]
      dsimp only
      rw [if_pos h, if_neg (fun hc => lt_irrefl _ hc.1)]
    exact dispatch_outputs_congr e.state { e.state with
        battery := min 100 (e.state.battery + e.state.gridImportAmount / 500),
        gridImportAmount := 0 } p hb1 rfl rfl rfl rfl
  · intro h
    rw [chargeFromGrid_eq, if_neg (fun hc => absurd hc.2 (not_lt.mpr h))]

/-- C17 at scenario A with a manual grid charge of 1000 kW: the tick ends as the tick without
manual charge that starts from `min(100, 55 + 1000 / 500) = 57` %. -/
theorem manual_charge_applied_first_witness :
    (updateFromBackend (sample 55 20 50 200 0 1000) ⟨100, 50, 0⟩).state.battery
      = (updateFromBackend { sample 55 20 50 200 0 1000 with state :=
          { (sample 55 20 50 200 0 1000).state with
            battery := min 100 ((sample 55 20 50 200 0 1000).state.battery
              + (sample 55 20 50 200 0 1000).state.gridImportAmount / 500),
            gridImportAmount := 0 } } ⟨100, 50, 0⟩).state.battery :=
  ((manual_charge_applied_first (sample 55 20 50 200 0 1000) ⟨100, 50, 0⟩).1
    (by norm_num [sample_state])).1

/-- The ledger of a concrete page starts empty. -/
theorem sample_ledger (b r pr l ed m : ℚ) :
    (sample b r pr l ed m).state.costSavingsTotal = 0 ∧
    (sample b r pr l ed m).state.co2ReducedTotal = 0 ∧
    (sample b r pr l ed m).state.gridExportTotal = 0 ∧
    (sample b r pr l ed m).state.gridExportIncome = 0 ∧
    (sample b r pr l ed m).state.gridImportCostTotal = 0 ∧
    savedOrZero (sample b r pr l ed m).localStorage.costSavingsTotal = 0 ∧
    savedOrZero (sample b r pr l ed m).localStorage.co2ReducedTotal = 0 ∧
    savedOrZero (sample b r pr l ed m).localStorage.gridImportCostTotal = 0 ∧
    gridRate (sample b r pr l ed m) = 6 := by
  have h : jsOr (savedOrZero none) 0 = 0 := jsOr_zero _
  refine ⟨h, h, h, h, h, rfl, rfl, rfl, ?_⟩
  show parseGridRate none = 6
  norm_num [parseGridRate]

theorem sample_synced (b r pr l ed m : ℚ) : Synced (sample b r pr l ed m) := by
  obtain ⟨h1, h2, -, -, h5, h6, h7, h8, -⟩ := sample_ledger b r pr l ed m
  exact ⟨h6.trans h1.symm, h7.trans h2.symm, h8.trans h5.symm⟩

/-- C18, as stated, fails on the ledger: at scenario A the tick with a manual grid charge of
-100 kW leaves `gridImportCostTotal` at `(25 - 100) * 5.4 = -405`, the tick with a manual grid
charge of 0 leaves it at `25 * 5.4 = 135`. -/
theorem negative_manual_charge_counterexample :
    (sample 55 20 50 200 0 (-100)).state.gridImportAmount < 0 ∧
    (updateFromBackend (sample 55 20 50 200 0 (-100)) ⟨100, 50, 0⟩).state.gridImportCostTotal
      = -405 ∧
    (updateFromBackend (sample 55 20 50 200 0 0) ⟨100, 50, 0⟩).state.gridImportCostTotal
      = 135 ∧
    (updateFromBackend (sample 55 20 50 200 0 (-100)) ⟨100, 50, 0⟩).state.gridImportCostTotal
      ≠ (updateFromBackend (sample 55 20 50 200 0 0) ⟨100, 50, 0⟩).state.gridImportCostTotal := by
  have eval : ∀ m : ℚ, m ≤ 0 →
      (updateFromBackend (sample 55 20 50 200 0 m) ⟨100, 50, 0⟩).state.gridImportCostTotal
        = (25 + m) * 5.4 := by
    intro m hm
    obtain ⟨hE, hB, hG⟩ := dispatch_deficit (sample 55 20 50 200 0 m).state ⟨100, 50, 0⟩
      (by norm_num [sample_state])
    rw [hE] at hB
    rw [hB] at hG
    have hm0 : ¬ 0 < m := not_lt.mpr hm
    have hG25 : (dispatch (sample 55 20 50 200 0 m).state ⟨100, 50, 0⟩).gridImport = 25 := by
      rw [hG]
      norm_num [chargeFromGrid_sample, sample_state, hm0]
    rw [(updateFromBackend_counters _ _).2.2.2.2, hG25, (sample_ledger _ _ _ _ _ _).2.2.2.2.1,
      (sample_ledger _ _ _ _ _ _).2.2.2.2.2.2.2.1, (sample_state _ _ _ _ _ _).2.2.2.2.2]
    norm_num
  rw [eval (-100) (by norm_num), eval 0 (le_refl _)]
  norm_num [sample_state]

/-- C18, amended. A negative manual grid charge is treated as absent by the dispatch and by
four of the five counters: the tick leaves the same battery level, `gridImport`, `gridExport`,
`costSavingsTotal`, `co2ReducedTotal`, `gridExportTotal` and `gridExportIncome` as the tick
with a manual grid charge of 0. -/
theorem negative_manual_charge (e : EnergyManagementSystem) (p : Predictions)
    (hneg : e.state.gridImportAmount < 0) :
    (updateFromBackend e p).state.battery
      = (updateFromBackend { e with state := { e.state with gridImportAmount := 0 } }
          p).state.battery ∧
    (updateFromBackend e p).state.gridImport
      = (updateFromBackend { e with state := { e.state with gridImportAmount := 0 } }
          p).state.gridImport ∧
    (updateFromBackend e p).state.gridExport
      = (updateFromBackend { e with state := { e.state with gridImportAmount := 0 } }
          p).state.gridExport ∧
    (updateFromBackend e p).state.costSavingsTotal
      = (updateFromBackend { e with state := { e.state with gridImportAmount := 0 } }
          p).state.costSavingsTotal ∧
    (updateFromBackend e p).state.co2ReducedTotal
      = (updateFromBackend { e with state := { e.state with gridImportAmount := 0 } }
          p).state.co2ReducedTotal ∧
    (updateFromBackend e p).state.gridExportTotal
      = (updateFromBackend { e with state := { e.state with gridImportAmount := 0 } }
          p).state.gridExportTotal ∧
    (updateFromBackend e p).state.gridExportIncome
      = (updateFromBackend { e with state := { e.state with gridImportAmount := 0 } }
          p).state.gridExportIncome := by
  have hb1 : (chargeFromGrid e.state).battery
      = (chargeFromGrid { e.state with gridImportAmount := 0 }).battery := by
    rw [chargeFromGrid_eq, chargeFromGrid_eq]
    dsimp only
    rw [if_neg (fun hc => absurd hc.1 (not_lt.mpr (le_of_lt hneg))),
      if_neg (fun hc => lt_irrefl _ hc.1)]
  obtain ⟨dB, dG, dE⟩ := dispatch_outputs_congr e.state
    { e.state with gridImportAmount := 0 } p hb1 rfl rfl rfl rfl
  obtain ⟨k1, k2, k3, k4, -⟩ := updateFromBackend_counters e p
  obtain ⟨j1, j2, j3, j4, -⟩ := updateFromBackend_counters
    { e with state := { e.state with gridImportAmount := 0 } } p
  rw [(updateFromBackend_outputs e p).1, (updateFromBackend_outputs e p).2.1,
    (updateFromBackend_outputs e p).2.2, (updateFromBackend_outputs _ p).1,
    (updateFromBackend_outputs _ p).2.1, (updateFromBackend_outputs _ p).2.2,
    k1, k2, k3, k4, j1, j2, j3, j4]
  refine ⟨dB, dG, dE, rfl, rfl, ?_, ?_⟩
  · show _ = (if 0 < (dispatch { e.state with gridImportAmount := 0 } p).gridExport then
      e.state.gridExportTotal + (dispatch { e.state with gridImportAmount := 0 } p).gridExport
      else e.state.gridExportTotal)
    rw [dE]
  · show _ = (if 0 < (dispatch { e.state with gridImportAmount := 0 } p).gridExport then
      e.state.gridExportIncome
        + (dispatch { e.state with gridImportAmount := 0 } p).gridExport * gridRate e
      else e.state.gridExportIncome)
    rw [dE]

/-- C18, amended, at scenario C with a manual grid charge of -100 kW. -/
theorem negative_manual_charge_witness :
    (updateFromBackend (sample 90 20 50 200 50 (-100)) ⟨300, 100, 0⟩).state.battery
      = (updateFromBackend { sample 90 20 50 200 50 (-100) with state :=
          { (sample 90 20 50 200 50 (-100)).state with gridImportAmount := 0 } }
          ⟨300, 100, 0⟩).state.battery :=
  (negative_manual_charge (sample 90 20 50 200 50 (-100)) ⟨300, 100, 0⟩
    (by norm_num [sample_state])).1

/-! ### The accrual of one tick -/

theorem updateKPIs_totalGeneration (e : EnergyManagementSystem) :
    (updateKPIs e).state.totalGeneration = e.state.totalGeneration := by
  have h1 : ∀ x : EnergyManagementSystem,
      (updatePerformanceMetrics x).state.totalGeneration = x.state.totalGeneration := by
    intro x; unfold updatePerformanceMetrics; dsimp only; split_ifs <;> rfl
  have h2 : ∀ x : EnergyManagementSystem,
      (updateCumulativeExportMetrics x).state.totalGeneration = x.state.totalGeneration := by
    intro x; unfold updateCumulativeExportMetrics; dsimp only; split_ifs <;> rfl
  have h3 : ∀ x : EnergyManagementSystem,
      (updateGridImportCosts x).state.totalGeneration = x.state.totalGeneration := by
    intro x; unfold updateGridImportCosts; dsimp only; split_ifs <;> rfl
  simp only [updateKPIs, updateExportEarnings, updateGridImportDisplay]
  rw [h3, h2, h1]

theorem updateFromBackend_totalGeneration (e : EnergyManagementSystem) (p : Predictions) :
    (updateFromBackend e p).state.totalGeneration = p.solar_gen + p.wind_gen := by
  unfold updateFromBackend
  rw [updateKPIs_totalGeneration]
  exact (dispatch_frame e.state p).1

/-- C19. The ledger accrual of a tick adds exactly `totalGeneration * 5.3` to
`costSavingsTotal` and exactly `totalGeneration * 0.91` to `co2ReducedTotal`, where
`totalGeneration = solarGen + windGen` of the tick just dispatched; `localStorage` mirrors the
counters, as the constructor and every accrual leave it. -/
theorem generation_accrual (e : EnergyManagementSystem) (p : Predictions) (hs : Synced e) :
    (updateFromBackend e p).state.totalGeneration = p.solar_gen + p.wind_gen ∧
    (updateFromBackend e p).state.costSavingsTotal
      = e.state.costSavingsTotal + (updateFromBackend e p).state.totalGeneration * 5.3 ∧
    (updateFromBackend e p).state.co2ReducedTotal
      = e.state.co2ReducedTotal + (updateFromBackend e p).state.totalGeneration * 0.91 := by
  obtain ⟨s1, s2, -⟩ := hs
  obtain ⟨k1, k2, -, -, -⟩ := updateFromBackend_counters e p
  rw [updateFromBackend_totalGeneration, k1, k2, s1, s2]
  refine ⟨rfl, ?_, ?_⟩
  · split_ifs with h
    · rw [h]
    · rfl
  · split_ifs with h
    · rw [h]
    · rfl

/-- C19 at scenario A: a generation of 150 kW adds 795 to `costSavingsTotal` and 136.5 to
`co2ReducedTotal`. -/
theorem generation_accrual_witness :
    (updateFromBackend (sample 55 20 50 200 0 0) ⟨100, 50, 0⟩).state.costSavingsTotal = 795 ∧
    (updateFromBackend (sample 55 20 50 200 0 0) ⟨100, 50, 0⟩).state.co2ReducedTotal
      = 136.5 := by
  obtain ⟨h0, h1, h2⟩ := generation_accrual (sample 55 20 50 200 0 0) ⟨100, 50, 0⟩
    (sample_synced _ _ _ _ _ _)
  rw [h0, (sample_ledger _ _ _ _ _ _).1] at h1
  rw [h0, (sample_ledger _ _ _ _ _ _).2.1] at h2
  rw [h1, h2]
  norm_num

/-- C20. Export accrual of a tick: if the tick's `gridExport > 0` then `gridExportTotal`
increases by exactly `gridExport` and `gridExportIncome` by exactly `gridExport * gridRate`; if
`gridExport = 0` both counters are left unchanged. -/
theorem export_accrual (e : EnergyManagementSystem) (p : Predictions) :
    (0 < (updateFromBackend e p).state.gridExport →
      (updateFromBackend e p).state.gridExportTotal
        = e.state.gridExportTotal + (updateFromBackend e p).state.gridExport ∧
      (updateFromBackend e p).state.gridExportIncome
        = e.state.gridExportIncome + (updateFromBackend e p).state.gridExport * gridRate e) ∧
    ((updateFromBackend e p).state.gridExport = 0 →
      (updateFromBackend e p).state.gridExportTotal = e.state.gridExportTotal ∧
      (updateFromBackend e p).state.gridExportIncome = e.state.gridExportIncome) := by
  obtain ⟨-, -, k3, k4, -⟩ := updateFromBackend_counters e p
  rw [(updateFromBackend_outputs e p).2.2, k3, k4]
  constructor
  · intro h
    rw [if_pos h, if_pos h]
    exact ⟨rfl, rfl⟩
  · intro h
    have hn : ¬ 0 < (dispatch e.state p).gridExport := by rw [h]; exact lt_irrefl _
    rw [if_neg hn, if_neg hn]
    exact ⟨rfl, rfl⟩

/-- C20 at scenario C with the default grid rate of 6: the export of 50 kW adds 50 to
`gridExportTotal` and 300 to `gridExportIncome`. -/
theorem export_accrual_witness :
    (updateFromBackend (sample 90 20 50 200 50 0) ⟨300, 100, 0⟩).state.gridExportTotal = 50 ∧
    (updateFromBackend (sample 90 20 50 200 50 0) ⟨300, 100, 0⟩).state.gridExportIncome
      = 300 := by
  have hE : (updateFromBackend (sample 90 20 50 200 50 0) ⟨300, 100, 0⟩).state.gridExport
      = 50 := by
    rw [(updateFromBackend_outputs _ _).2.2,
      (dispatch_surplus_export (sample 90 20 50 200 50 0).state ⟨300, 100, 0⟩
        (by norm_num [sample_state]) (by norm_num [sample_state])).1]
    norm_num [chargeFromGrid_sample, sample_state]
  obtain ⟨h1, h2⟩ := (export_accrual (sample 90 20 50 200 50 0) ⟨300, 100, 0⟩).1
    (by rw [hE]; norm_num)
  rw [hE, (sample_ledger _ _ _ _ _ _).2.2.1] at h1
  rw [hE, (sample_ledger _ _ _ _ _ _).2.2.2.1, (sample_ledger _ _ _ _ _ _).2.2.2.2.2.2.2.2] at h2
  rw [h1, h2]
  norm_num

/-! ### Import cost and net income -/

/-- The net income that `updateKPIs` shows: the export income as just accrued, less the import
cost total that `updateKPIs` found, since `updateGridImportCosts` runs last (line 371). -/
theorem updateKPIs_totalNetIncome (e : EnergyManagementSystem) :
    (updateKPIs e).totalNetIncome
      = (updateKPIs e).state.gridExportIncome - e.state.gridImportCostTotal := by
  have h3 : ∀ x : EnergyManagementSystem,
      (updateGridImportCosts x).totalNetIncome = x.totalNetIncome := by
    intro x; unfold updateGridImportCosts; dsimp only; split_ifs <;> rfl
  have g7 := (updateGridImportCosts_frame
    (updateCumulativeExportMetrics (updatePerformanceMetrics e))).2.2.2.2.2.2.1
  have c := (updateCumulativeExportMetrics_counters (updatePerformanceMetrics e)).2.2
  have p7 := (updatePerformanceMetrics_frame e).2.2.2.2.2.2.1
  simp only [updateKPIs, updateExportEarnings, updateGridImportDisplay]
  rw [h3, g7, c, p7]

theorem updateFromBackend_totalNetIncome (e : EnergyManagementSystem) (p : Predictions) :
    (updateFromBackend e p).totalNetIncome
      = (updateFromBackend e p).state.gridExportIncome - e.state.gridImportCostTotal := by
  unfold updateFromBackend
  dsimp only
  rw [updateKPIs_totalNetIncome]
  congr 1
  exact (dispatch_frame e.state p).2.2.2.2.2.2.2.2

/-- C21. The ledger accrual of a tick adds exactly `(gridImport + manualGridChargeAmount) * 5.4`
to `gridImportCostTotal`, where `gridImport` is the deficit-driven import of the tick just
dispatched and `manualGridChargeAmount` the configured manual charge; `localStorage` mirrors
the counters, as the constructor and every accrual leave it. -/
theorem import_cost_accrual (e : EnergyManagementSystem) (p : Predictions) (hs : Synced e) :
    (updateFromBackend e p).state.gridImportCostTotal
      = e.state.gridImportCostTotal
        + ((updateFromBackend e p).state.gridImport + e.state.gridImportAmount) * 5.4 := by
  obtain ⟨-, -, s3⟩ := hs
  rw [(updateFromBackend_counters e p).2.2.2.2, (updateFromBackend_outputs e p).2.1, s3]
  split_ifs with h
  · rw [h]
  · rfl

/-- C21 at scenario A with a manual grid charge of 100 kW: `(25 + 100) * 5.4 = 675`. -/
theorem import_cost_accrual_witness :
    (updateFromBackend (sample 55 20 50 200 0 100) ⟨100, 50, 0⟩).state.gridImportCostTotal
      = 675 := by
  have h := import_cost_accrual (sample 55 20 50 200 0 100) ⟨100, 50, 0⟩
    (sample_synced _ _ _ _ _ _)
  obtain ⟨hE, hB, hG⟩ := dispatch_deficit (sample 55 20 50 200 0 100).state ⟨100, 50, 0⟩
    (by norm_num [sample_state])
  rw [hE] at hB
  rw [hB] at hG
  rw [(updateFromBackend_outputs _ _).2.1, hG, (sample_ledger _ _ _ _ _ _).2.2.2.2.1] at h
  rw [h]
  norm_num [chargeFromGrid_sample, sample_state]

/-- C22 fails on the code: on a fresh page the tick of scenario A (import of 25 kW, no export)
leaves `gridExportIncome = 0` and `gridImportCostTotal = 135`, and the net income it shows is
0, not `0 - 135`: `updateCumulativeExportMetrics` derives it before `updateGridImportCosts`
has added the import cost of the tick. -/
theorem total_net_income_misses_import_cost :
    (updateFromBackend (sample 55 20 50 200 0 0) ⟨100, 50, 0⟩).state.gridExportIncome = 0 ∧
    (updateFromBackend (sample 55 20 50 200 0 0) ⟨100, 50, 0⟩).state.gridImportCostTotal
      = 135 ∧
    (updateFromBackend (sample 55 20 50 200 0 0) ⟨100, 50, 0⟩).totalNetIncome = 0 ∧
    (updateFromBackend (sample 55 20 50 200 0 0) ⟨100, 50, 0⟩).totalNetIncome
      ≠ (updateFromBackend (sample 55 20 50 200 0 0) ⟨100, 50, 0⟩).state.gridExportIncome
        - (updateFromBackend (sample 55 20 50 200 0 0)
            ⟨100, 50, 0⟩).state.gridImportCostTotal := by
  obtain ⟨hE, hB, hG⟩ := dispatch_deficit (sample 55 20 50 200 0 0).state ⟨100, 50, 0⟩
    (by norm_num [sample_state])
  rw [hE] at hB
  rw [hB] at hG
  have hE0 : (dispatch (sample 55 20 50 200 0 0).state ⟨100, 50, 0⟩).gridExport = 0 := by
    rw [hE]; norm_num [sample_state]
  have hG25 : (dispatch (sample 55 20 50 200 0 0).state ⟨100, 50, 0⟩).gridImport = 25 := by
    rw [hG]; norm_num [chargeFromGrid_sample, sample_state]
  have hinc :
      (updateFromBackend (sample 55 20 50 200 0 0) ⟨100, 50, 0⟩).state.gridExportIncome
        = 0 := by
    rw [(updateFromBackend_counters _ _).2.2.2.1, hE0, if_neg (lt_irrefl _),
      (sample_ledger _ _ _ _ _ _).2.2.2.1]
  have hcost :
      (updateFromBackend (sample 55 20 50 200 0 0) ⟨100, 50, 0⟩).state.gridImportCostTotal
        = 135 := by
    rw [(updateFromBackend_counters _ _).2.2.2.2, hG25,
      (sample_ledger _ _ _ _ _ _).2.2.2.2.1, (sample_ledger _ _ _ _ _ _).2.2.2.2.2.2.2.1,
      (sample_state _ _ _ _ _ _).2.2.2.2.2]
    norm_num
  have hnet : (updateFromBackend (sample 55 20 50 200 0 0) ⟨100, 50, 0⟩).totalNetIncome
      = 0 := by
    rw [updateFromBackend_totalNetIncome, hinc, (sample_ledger _ _ _ _ _ _).2.2.2.2.1]
    norm_num
  rw [hnet, hinc, hcost]
  norm_num

/-- C30. The manual grid charge is billed even when it charges nothing: in a tick with the
state of charge exactly 100 before the tick and a manual grid charge `m > 0`, the
manual-charge step leaves the state (and so the battery) unchanged, yet `gridImportCostTotal`
increases by `(gridImport + m) * 5.4`, which is more than the `gridImport * 5.4` that the
load alone accounts for; `localStorage` mirrors the counters, as the constructor and every
accrual leave it. -/
theorem manual_charge_billed_at_full_battery (e : EnergyManagementSystem) (p : Predictions)
    (hfull : e.state.battery = 100) (hm : 0 < e.state.gridImportAmount) (hs : Synced e) :
    chargeFromGrid e.state = e.state ∧
    (updateFromBackend e p).state.gridImportCostTotal
      = e.state.gridImportCostTotal
        + ((updateFromBackend e p).state.gridImport + e.state.gridImportAmount) * 5.4 ∧
    e.state.gridImportCostTotal + (updateFromBackend e p).state.gridImport * 5.4
      < (updateFromBackend e p).state.gridImportCostTotal := by
  obtain ⟨-, -, s3⟩ := hs
  have hcost : (updateFromBackend e p).state.gridImportCostTotal
      = e.state.gridImportCostTotal
        + ((updateFromBackend e p).state.gridImport + e.state.gridImportAmount) * 5.4 := by
    rw [(updateFromBackend_counters e p).2.2.2.2, (updateFromBackend_outputs e p).2.1, s3]
    split_ifs with h
    · rw [h]
    · rfl
  refine ⟨?_, hcost, ?_⟩
  · rw [chargeFromGrid_eq, if_neg (fun hc => by rw [hfull] at hc; exact lt_irrefl _ hc.2)]
  · rw [hcost]
    have : 0 < e.state.gridImportAmount * 5.4 := mul_pos hm (by norm_num)
    linarith

/-- C30 at a full battery with a manual grid charge of 100 kW in a surplus tick (generation
400 kW, load 200 kW): nothing is imported for the load and `100 * 5.4 = 540` is billed. -/
theorem manual_charge_billed_at_full_battery_witness :
    chargeFromGrid (sample 100 20 50 200 0 100).state = (sample 100 20 50 200 0 100).state ∧
    (updateFromBackend (sample 100 20 50 200 0 100) ⟨300, 100, 0⟩).state.gridImportCostTotal
      = 540 := by
  obtain ⟨h1, h2, -⟩ := manual_charge_billed_at_full_battery (sample 100 20 50 200 0 100)
    ⟨300, 100, 0⟩ (by norm_num [sample_state]) (by norm_num [sample_state])
    (sample_synced _ _ _ _ _ _)
  refine ⟨h1, ?_⟩
  rw [(updateFromBackend_outputs _ _).2.1,
    (dispatch_surplus (sample 100 20 50 200 0 100).state ⟨300, 100, 0⟩
      (by norm_num [sample_state])).2.2, (sample_ledger _ _ _ _ _ _).2.2.2.2.1] at h2
  rw [h2]
  norm_num [sample_state]

/-! ### The history buffer -/

/-- Pushing a sample on a series of at most `maxHistory` elements and trimming it keeps the
last `maxHistory` elements. -/
theorem shiftIfOver_push (xs : List ℚ) (v : ℚ) (h : xs.length ≤ 30) :
    shiftIfOver (xs ++ [v]) = (xs ++ [v]).drop ((xs ++ [v]).length - 30) ∧
    (shiftIfOver (xs ++ [v])).length = min (xs.length + 1) 30 ∧
    (xs.length = 30 → shiftIfOver (xs ++ [v]) = xs.tail ++ [v]) := by
  unfold shiftIfOver maxHistory
  rw [List.length_append, List.length_singleton]
  by_cases hfull : xs.length = 30
  · have hne : xs ≠ [] := by
      intro hnil; rw [hnil] at hfull; exact absurd hfull (by decide)
    rw [if_pos (by omega), hfull]
    refine ⟨?_, ?_, fun _ => List.tail_append_of_ne_nil hne⟩
    · exact (List.drop_one _).symm
    · rw [List.length_tail, List.length_append, List.length_singleton, hfull]
      rfl
  · have hlt : xs.length < 30 := lt_of_le_of_ne h hfull
    rw [if_neg (by omega)]
    refine ⟨?_, ?_, fun hc => absurd hc hfull⟩
    · rw [Nat.sub_eq_zero_of_le (by omega), List.drop_zero]
    · rw [List.length_append, List.length_singleton]
      exact (min_eq_left (by omega)).symm

/-- C23. The history buffer is a FIFO window of capacity 30: for each series (solar, wind,
grid, battery) of length at most 30 before `updateHistory`, the series after it is the last 30
elements of the old series followed by the new sample; its length is
`min(old length + 1, 30)`, and at capacity the sample dropped is the oldest one. -/
theorem history_fifo_window (s : State) :
    (s.history.solar.length ≤ 30 →
      (updateHistory s).history.solar
        = (s.history.solar ++ [s.solar]).drop ((s.history.solar ++ [s.solar]).length - 30) ∧
      (updateHistory s).history.solar.length = min (s.history.solar.length + 1) 30 ∧
      (s.history.solar.length = 30 →
        (updateHistory s).history.solar = s.history.solar.tail ++ [s.solar])) ∧
    (s.history.wind.length ≤ 30 →
      (updateHistory s).history.wind
        = (s.history.wind ++ [s.wind]).drop ((s.history.wind ++ [s.wind]).length - 30) ∧
      (updateHistory s).history.wind.length = min (s.history.wind.length + 1) 30 ∧
      (s.history.wind.length = 30 →
        (updateHistory s).history.wind = s.history.wind.tail ++ [s.wind])) ∧
    (s.history.grid.length ≤ 30 →
      (updateHistory s).history.grid
        = (s.history.grid ++ [s.grid]).drop ((s.history.grid ++ [s.grid]).length - 30) ∧
      (updateHistory s).history.grid.length = min (s.history.grid.length + 1) 30 ∧
      (s.history.grid.length = 30 →
        (updateHistory s).history.grid = s.history.grid.tail ++ [s.grid])) ∧
    (s.history.battery.length ≤ 30 →
      (updateHistory s).history.battery
        = (s.history.battery ++ [s.battery]).drop
            ((s.history.battery ++ [s.battery]).length - 30) ∧
      (updateHistory s).history.battery.length = min (s.history.battery.length + 1) 30 ∧
      (s.history.battery.length = 30 →
        (updateHistory s).history.battery = s.history.battery.tail ++ [s.battery])) :=
  ⟨fun h => shiftIfOver_push s.history.solar s.solar h,
   fun h => shiftIfOver_push s.history.wind s.wind h,
   fun h => shiftIfOver_push s.history.grid s.grid h,
   fun h => shiftIfOver_push s.history.battery s.battery h⟩

/-- C23 on a solar series that holds 30 samples (a 5 followed by 29 times 1) when the sample
7 arrives: the 5 is dropped and the series still holds 30 samples. -/
theorem history_fifo_window_witness :
    (updateHistory { (sample 55 20 50 200 0 0).state with
        solar := 7,
        history := { solar := 5 :: List.replicate 29 1, wind := [], grid := [],
                     battery := [] } }).history.solar = List.replicate 29 1 ++ [7] ∧
    (updateHistory { (sample 55 20 50 200 0 0).state with
        solar := 7,
        history := { solar := 5 :: List.replicate 29 1, wind := [], grid := [],
                     battery := [] } }).history.solar.length = 30 := by
  obtain ⟨-, h2, h3⟩ := (history_fifo_window { (sample 55 20 50 200 0 0).state with
        solar := 7,
        history := { solar := 5 :: List.replicate 29 1, wind := [], grid := [],
                     battery := [] } }).1 (by simp)
  exact ⟨h3 (by simp), h2⟩

/-! ### The listeners and the ledger -/

/-- The ledger updates leave the controls alone. -/
theorem updateKPIs_controls (e : EnergyManagementSystem) :
    (updateKPIs e).state.gridImportAmount = e.state.gridImportAmount ∧
    (updateKPIs e).state.batteryPriority = e.state.batteryPriority := by
  have h1 : ∀ x : EnergyManagementSystem,
      (updatePerformanceMetrics x).state.gridImportAmount = x.state.gridImportAmount ∧
      (updatePerformanceMetrics x).state.batteryPriority = x.state.batteryPriority := by
    intro x; unfold updatePerformanceMetrics; dsimp only; split_ifs <;> exact ⟨rfl, rfl⟩
  have h2 : ∀ x : EnergyManagementSystem,
      (updateCumulativeExportMetrics x).state.gridImportAmount = x.state.gridImportAmount ∧
      (updateCumulativeExportMetrics x).state.batteryPriority = x.state.batteryPriority := by
    intro x; unfold updateCumulativeExportMetrics; dsimp only; split_ifs <;> exact ⟨rfl, rfl⟩
  have h3 : ∀ x : EnergyManagementSystem,
      (updateGridImportCosts x).state.gridImportAmount = x.state.gridImportAmount ∧
      (updateGridImportCosts x).state.batteryPriority = x.state.batteryPriority := by
    intro x; unfold updateGridImportCosts; dsimp only; split_ifs <;> exact ⟨rfl, rfl⟩
  simp only [updateKPIs, updateExportEarnings, updateGridImportDisplay]
  exact ⟨by rw [(h3 _).1, (h2 _).1, (h1 _).1], by rw [(h3 _).2, (h2 _).2, (h1 _).2]⟩

theorem updateFromBackend_gridImportAmount (e : EnergyManagementSystem) (p : Predictions) :
    (updateFromBackend e p).state.gridImportAmount = e.state.gridImportAmount := by
  unfold updateFromBackend
  rw [(updateKPIs_controls _).1]
  exact (dispatch_frame e.state p).2.2.2.1

/-- Every listener but the one of the Optimize button leaves the five counters as they are. -/
theorem perform_counters_unchanged (e : EnergyManagementSystem) (a : UserAction)
    (h : a ≠ UserAction.optimize) :
    (perform e a).state.costSavingsTotal = e.state.costSavingsTotal ∧
    (perform e a).state.co2ReducedTotal = e.state.co2ReducedTotal ∧
    (perform e a).state.gridExportTotal = e.state.gridExportTotal ∧
    (perform e a).state.gridExportIncome = e.state.gridExportIncome ∧
    (perform e a).state.gridImportCostTotal = e.state.gridImportCostTotal := by
  cases a with
  | optimize => exact absurd rfl h
  | gridImportSlider value => exact ⟨rfl, rfl, rfl, rfl, rfl⟩
  | gridRate value => exact ⟨rfl, rfl, rfl, rfl, rfl⟩
  | sunHours => exact ⟨rfl, rfl, rfl, rfl, rfl⟩
  | reserveSlider value => exact ⟨rfl, rfl, rfl, rfl, rfl⟩
  | batteryPrioritySlider value => exact ⟨rfl, rfl, rfl, rfl, rfl⟩
  | exportDemandSlider value => exact ⟨rfl, rfl, rfl, rfl, rfl⟩
  | consumption consumptionWh => exact ⟨rfl, rfl, rfl, rfl, rfl⟩
  | reset => exact ⟨rfl, rfl, rfl, rfl, rfl⟩

/-- The listener of the Optimize button accrues the ledger as `updateKPIs` does on the page it
was clicked on. -/
theorem optimizeClick_counters (e : EnergyManagementSystem) :
    (optimizeClick e).state.costSavingsTotal = (updateKPIs e).state.costSavingsTotal ∧
    (optimizeClick e).state.co2ReducedTotal = (updateKPIs e).state.co2ReducedTotal ∧
    (optimizeClick e).state.gridExportTotal = (updateKPIs e).state.gridExportTotal ∧
    (optimizeClick e).state.gridExportIncome = (updateKPIs e).state.gridExportIncome ∧
    (optimizeClick e).state.gridImportCostTotal = (updateKPIs e).state.gridImportCostTotal := by
  have key : ∀ v : ℚ,
      (updateKPIs { e with state := { e.state with batteryPriority := v } }).state.costSavingsTotal
        = (updateKPIs e).state.costSavingsTotal ∧
      (updateKPIs { e with state := { e.state with batteryPriority := v } }).state.co2ReducedTotal
        = (updateKPIs e).state.co2ReducedTotal ∧
      (updateKPIs { e with state := { e.state with batteryPriority := v } }).state.gridExportTotal
        = (updateKPIs e).state.gridExportTotal ∧
      (updateKPIs { e with state := { e.state with batteryPriority := v } }).state.gridExportIncome
        = (updateKPIs e).state.gridExportIncome ∧
      (updateKPIs { e with state := { e.state with batteryPriority := v } }).state.gridImportCostTotal
        = (updateKPIs e).state.gridImportCostTotal := by
    intro v
    obtain ⟨a1, a2, a3, a4, a5⟩ := updateKPIs_counters e
    obtain ⟨b1, b2, b3, b4, b5⟩ :=
      updateKPIs_counters { e with state := { e.state with batteryPriority := v } }
    rw [a1, a2, a3, a4, a5, b1, b2, b3, b4, b5]
    exact ⟨rfl, rfl, rfl, rfl, rfl⟩
  unfold optimizeClick saveSettings
  dsimp only
  split_ifs
  · exact key 90
  · exact key 90
  · exact key 30
  · exact key 40
  · exact key 60

/-- C24 fails on the code: on the page that the tick of scenario A leaves
(`costSavingsTotal = 795`, `gridImportCostTotal = 135`), a click on the Optimize button, which
is no tick, raises `costSavingsTotal` to 1590 and `gridImportCostTotal` to 270: its listener
ends with `updateKPIs` (line 1354), which accrues the ledger. -/
theorem optimize_click_accrues_ledger :
    (updateFromBackend (sample 55 20 50 200 0 0) ⟨100, 50, 0⟩).state.costSavingsTotal = 795 ∧
    (perform (updateFromBackend (sample 55 20 50 200 0 0) ⟨100, 50, 0⟩)
      UserAction.optimize).state.costSavingsTotal = 1590 ∧
    (updateFromBackend (sample 55 20 50 200 0 0) ⟨100, 50, 0⟩).state.gridImportCostTotal
      = 135 ∧
    (perform (updateFromBackend (sample 55 20 50 200 0 0) ⟨100, 50, 0⟩)
      UserAction.optimize).state.gridImportCostTotal = 270 := by
  obtain ⟨hE, hB, hG⟩ := dispatch_deficit (sample 55 20 50 200 0 0).state ⟨100, 50, 0⟩
    (by norm_num [sample_state])
  rw [hE] at hB
  rw [hB] at hG
  have hG25 : (updateFromBackend (sample 55 20 50 200 0 0) ⟨100, 50, 0⟩).state.gridImport
      = 25 := by
    rw [(updateFromBackend_outputs _ _).2.1, hG]
    norm_num [chargeFromGrid_sample, sample_state]
  have hcs : (updateFromBackend (sample 55 20 50 200 0 0) ⟨100, 50, 0⟩).state.costSavingsTotal
      = 795 := by
    rw [(updateFromBackend_counters _ _).1, (sample_ledger _ _ _ _ _ _).1,
      (sample_ledger _ _ _ _ _ _).2.2.2.2.2.1]
    norm_num
  have hcost :
      (updateFromBackend (sample 55 20 50 200 0 0) ⟨100, 50, 0⟩).state.gridImportCostTotal
        = 135 := by
    rw [(updateFromBackend_counters _ _).2.2.2.2, ← (updateFromBackend_outputs _ _).2.1, hG25,
      (sample_ledger _ _ _ _ _ _).2.2.2.2.1, (sample_ledger _ _ _ _ _ _).2.2.2.2.2.2.2.1,
      (sample_state _ _ _ _ _ _).2.2.2.2.2]
    norm_num
  have hm : (updateFromBackend (sample 55 20 50 200 0 0) ⟨100, 50, 0⟩).state.gridImportAmount
      = 0 := by
    rw [updateFromBackend_gridImportAmount]
    exact (sample_state _ _ _ _ _ _).2.2.2.2.2
  refine ⟨hcs, ?_, hcost, ?_⟩
  · show (optimizeClick _).state.costSavingsTotal = 1590
    rw [(optimizeClick_counters _).1, (updateKPIs_counters _).1, hcs,
      updateFromBackend_totalGeneration]
    norm_num [jsOr]
  · show (optimizeClick _).state.gridImportCostTotal = 270
    rw [(optimizeClick_counters _).2.2.2.2, (updateKPIs_counters _).2.2.2.2, hcost, hG25, hm]
    norm_num

/-- C25. The Optimize action sets `batteryPriority` by a fixed case table over the current
battery level `b` and `balance = solar + wind - load`: 90 if (`b < 30` and `balance > 0`) or
(`b > 80` and `balance < 0`); 30 if `b > 80` and `balance > 0`; 40 if `b < 30` and
`balance < 0`; 60 otherwise.  Hence the resulting `batteryPriority` is one of 30, 40, 60, 90
and lies in `[0, 100]`. -/
theorem optimize_priority_table (e : EnergyManagementSystem) :
    (perform e UserAction.optimize).state.batteryPriority =
      (if (e.state.battery < 30 ∧ e.state.solar + e.state.wind - e.state.load > 0) ∨
          (e.state.battery > 80 ∧ e.state.solar + e.state.wind - e.state.load < 0) then 90
      else if e.state.battery > 80 ∧ e.state.solar + e.state.wind - e.state.load > 0 then 30
      else if e.state.battery < 30 ∧ e.state.solar + e.state.wind - e.state.load < 0 then 40
      else 60) ∧
    ((perform e UserAction.optimize).state.batteryPriority = 30 ∨
      (perform e UserAction.optimize).state.batteryPriority = 40 ∨
      (perform e UserAction.optimize).state.batteryPriority = 60 ∨
      (perform e UserAction.optimize).state.batteryPriority = 90) ∧
    0 ≤ (perform e UserAction.optimize).state.batteryPriority ∧
    (perform e UserAction.optimize).state.batteryPriority ≤ 100 := by
  have htable : (perform e UserAction.optimize).state.batteryPriority =
      (if (e.state.battery < 30 ∧ e.state.solar + e.state.wind - e.state.load > 0) ∨
          (e.state.battery > 80 ∧ e.state.solar + e.state.wind - e.state.load < 0) then 90
      else if e.state.battery > 80 ∧ e.state.solar + e.state.wind - e.state.load > 0 then 30
      else if e.state.battery < 30 ∧ e.state.solar + e.state.wind - e.state.load < 0 then 40
      else 60) := by
    show (optimizeClick e).state.batteryPriority = _
    unfold optimizeClick saveSettings
    dsimp only
    by_cases h1 : e.state.battery < 30 ∧ e.state.solar + e.state.wind - e.state.load > 0
    · rw [if_pos h1, if_pos (Or.inl h1), (updateKPIs_controls _).2]
    · by_cases h2 : e.state.battery > 80 ∧ e.state.solar + e.state.wind - e.state.load < 0
      · rw [if_neg h1, if_pos h2, if_pos (Or.inr h2), (updateKPIs_controls _).2]
      · rw [if_neg h1, if_neg h2, if_neg (not_or.mpr ⟨h1, h2⟩)]
        split_ifs <;> rw [(updateKPIs_controls _).2]
  refine ⟨htable, ?_, ?_, ?_⟩ <;> rw [htable] <;> split_ifs <;> norm_num

/-- C26. Export never exceeds the requested rate: in every tick with `exportDemand > 0`,
`gridExport ≤ exportDemand` (whatever the state of charge and the reserve). -/
theorem export_within_demand (e : EnergyManagementSystem) (p : Predictions)
    (hexp : 0 < e.state.exportDemand) :
    (updateFromBackend e p).state.gridExport ≤ e.state.exportDemand := by
  rw [(updateFromBackend_outputs e p).2.2]
  rcases lt_or_le (p.solar_gen + p.wind_gen) e.state.load with h | h
  · rw [(dispatch_deficit e.state p h).1]
    split_ifs
    · exact min_le_left _ _
    · exact le_of_lt hexp
  · rw [(dispatch_surplus_export e.state p h hexp).1]
    split_ifs with h1 h2 h3
    · exact le_of_lt hexp
    · exact le_refl _
    · exact le_refl _
    · linarith

/-- C26 at battery 20.01 %, reserve 20 %, export demand 50 kW and a surplus of 20 kW: the
battery can give 5 kW only, and `gridExport` stays within the 50 kW requested. -/
theorem export_within_demand_witness :
    (updateFromBackend (sample 20.01 20 50 200 50 0) ⟨200, 20, 0⟩).state.gridExport
      ≤ (sample 20.01 20 50 200 50 0).state.exportDemand :=
  export_within_demand (sample 20.01 20 50 200 50 0) ⟨200, 20, 0⟩
    (by norm_num [sample_state])

/-- C27. Battery-backed export conserves energy in the surplus branch: in a surplus tick with
`exportDemand > 0`, the state of charge `b1 > reserve` at the start of the branch and
`surplus < exportDemand`, the energy taken from the battery is the exported energy that the
surplus does not cover, `(b1 - b') * 500 = gridExport - surplus`, in the fully-met and in the
battery-limited case alike. -/
theorem surplus_export_conserves_energy (e : EnergyManagementSystem) (p : Predictions)
    (hsur : e.state.load ≤ p.solar_gen + p.wind_gen) (hexp : 0 < e.state.exportDemand)
    (habove : e.state.reserve < (chargeFromGrid e.state).battery)
    (hshort : p.solar_gen + p.wind_gen - e.state.load < e.state.exportDemand) :
    ((chargeFromGrid e.state).battery - (updateFromBackend e p).state.battery) * 500
      = (updateFromBackend e p).state.gridExport
        - (p.solar_gen + p.wind_gen - e.state.load) := by
  obtain ⟨hE, hB⟩ := dispatch_surplus_export e.state p hsur hexp
  rw [if_neg (not_le.mpr habove), if_neg (not_le.mpr hshort)] at hE hB
  rw [(updateFromBackend_outputs e p).1, (updateFromBackend_outputs e p).2.2, hE, hB]
  split_ifs with h
  · have hge : e.state.reserve ≤ (chargeFromGrid e.state).battery
        - (e.state.exportDemand - (p.solar_gen + p.wind_gen - e.state.load)) / 500 := by
      linarith
    rw [max_eq_right hge]
    ring
  · ring

/-- C27 in the battery-limited case: battery 20.01 %, reserve 20 %, export demand 50 kW and a
surplus of 20 kW give `gridExport = 25`, of which 5 kW come from the battery. -/
theorem surplus_export_conserves_energy_witness :
    ((chargeFromGrid (sample 20.01 20 50 200 50 0).state).battery
        - (updateFromBackend (sample 20.01 20 50 200 50 0) ⟨200, 20, 0⟩).state.battery) * 500
      = (updateFromBackend (sample 20.01 20 50 200 50 0) ⟨200, 20, 0⟩).state.gridExport
        - ((200 : ℚ) + 20 - (sample 20.01 20 50 200 50 0).state.load) :=
  surplus_export_conserves_energy (sample 20.01 20 50 200 50 0) ⟨200, 20, 0⟩
    (by norm_num [sample_state]) (by norm_num [sample_state])
    (by norm_num [chargeFromGrid_sample, sample_state])
    (by norm_num [sample_state])

/-- C28. Deficit energy balance: in a deficit tick in which the state of charge `b1` at the
start of the deficit branch is above reserve, if the state of charge `b'` after the drain is
still strictly above reserve then `gridImport + deficit * batteryPriority / 100 = deficit` and
`(b1 - b') * 500 = deficit * batteryPriority / 100 + gridExport`; whereas if the drain brings
the battery down to reserve, `gridImport` is the full deficit although the battery was also
discharged in that tick (`b' < b1`). -/
theorem deficit_energy_balance (e : EnergyManagementSystem) (p : Predictions)
    (hdef : p.solar_gen + p.wind_gen < e.state.load)
    (habove : e.state.reserve < (chargeFromGrid e.state).battery) :
    (e.state.reserve < (updateFromBackend e p).state.battery →
      (updateFromBackend e p).state.gridImport
          + (e.state.load - (p.solar_gen + p.wind_gen)) * e.state.batteryPriority / 100
        = e.state.load - (p.solar_gen + p.wind_gen) ∧
      ((chargeFromGrid e.state).battery - (updateFromBackend e p).state.battery) * 500
        = (e.state.load - (p.solar_gen + p.wind_gen)) * e.state.batteryPriority / 100
          + (updateFromBackend e p).state.gridExport) ∧
    ((updateFromBackend e p).state.battery = e.state.reserve →
      (updateFromBackend e p).state.gridImport = e.state.load - (p.solar_gen + p.wind_gen) ∧
      (updateFromBackend e p).state.battery < (chargeFromGrid e.state).battery) := by
  obtain ⟨-, hB, hG⟩ := dispatch_deficit e.state p hdef
  rw [if_pos habove] at hB
  rw [(updateFromBackend_outputs e p).1, (updateFromBackend_outputs e p).2.1,
    (updateFromBackend_outputs e p).2.2]
  constructor
  · intro h
    rw [if_pos h] at hG
    have hdrain : (dispatch e.state p).battery = (chargeFromGrid e.state).battery
        - ((e.state.load - (p.solar_gen + p.wind_gen)) * (e.state.batteryPriority / 100)
            + (dispatch e.state p).gridExport) / 500 := by
      rcases le_total e.state.reserve ((chargeFromGrid e.state).battery
        - ((e.state.load - (p.solar_gen + p.wind_gen)) * (e.state.batteryPriority / 100)
            + (dispatch e.state p).gridExport) / 500) with hc | hc
      · rw [max_eq_right hc] at hB; exact hB
      · rw [max_eq_left hc] at hB; rw [hB] at h; exact absurd h (lt_irrefl _)
    constructor
    · rw [hG]; ring
    · rw [hdrain]; ring
  · intro h
    rw [if_neg (by rw [h]; exact lt_irrefl _)] at hG
    exact ⟨hG, by rw [h]; exact habove⟩

/-- C28 where the drain reaches the reserve: battery 21 %, reserve 20 %, priority 50 %, no
generation, load 2000 kW.  The battery goes down to 20 % and the grid import is the full
2000 kW. -/
theorem deficit_energy_balance_witness :
    (updateFromBackend (sample 21 20 50 2000 0 0) ⟨0, 0, 0⟩).state.gridImport = 2000 ∧
    (updateFromBackend (sample 21 20 50 2000 0 0) ⟨0, 0, 0⟩).state.battery < 21 := by
  have hb : (updateFromBackend (sample 21 20 50 2000 0 0) ⟨0, 0, 0⟩).state.battery
      = (sample 21 20 50 2000 0 0).state.reserve := by
    obtain ⟨hE, hB, -⟩ := dispatch_deficit (sample 21 20 50 2000 0 0).state ⟨0, 0, 0⟩
      (by norm_num [sample_state])
    rw [hE] at hB
    rw [(updateFromBackend_outputs _ _).1, hB]
    norm_num [chargeFromGrid_sample, sample_state]
  have h := (deficit_energy_balance (sample 21 20 50 2000 0 0) ⟨0, 0, 0⟩
    (by norm_num [sample_state]) (by norm_num [chargeFromGrid_sample, sample_state])).2 hb
  norm_num [chargeFromGrid_sample, sample_state] at h
  exact h

/-- C29. `gridExport` is not monotone in `exportDemand`: with a full battery (100 %, reserve
20 %) and a surplus of 80 kW (generation 280 kW, load 200 kW), the tick with
`exportDemand = 0` exports 80 kW, while the tick with `exportDemand = 10`, the same in all
else, exports 10 kW and leaves the battery at 100 %: the remaining 70 kW are neither stored
nor exported. -/
theorem export_not_monotone_in_demand :
    (updateFromBackend (sample 100 20 50 200 0 0) ⟨200, 80, 0⟩).state.gridExport = 80 ∧
    (updateFromBackend (sample 100 20 50 200 10 0) ⟨200, 80, 0⟩).state.gridExport = 10 ∧
    (updateFromBackend (sample 100 20 50 200 10 0) ⟨200, 80, 0⟩).state.battery = 100 ∧
    (updateFromBackend (sample 100 20 50 200 10 0) ⟨200, 80, 0⟩).state.gridExport
      < (updateFromBackend (sample 100 20 50 200 0 0) ⟨200, 80, 0⟩).state.gridExport := by
  have h0 : (updateFromBackend (sample 100 20 50 200 0 0) ⟨200, 80, 0⟩).state.gridExport
      = 80 := by
    rw [(updateFromBackend_outputs _ _).2.2,
      (dispatch_surplus_no_export (sample 100 20 50 200 0 0).state ⟨200, 80, 0⟩
        (by norm_num [sample_state]) (by norm_num [sample_state])).1]
    norm_num [chargeFromGrid_sample, sample_state]
  obtain ⟨hE, hB⟩ := dispatch_surplus_export (sample 100 20 50 200 10 0).state ⟨200, 80, 0⟩
    (by norm_num [sample_state]) (by norm_num [sample_state])
  have h10 : (updateFromBackend (sample 100 20 50 200 10 0) ⟨200, 80, 0⟩).state.gridExport
      = 10 := by
    rw [(updateFromBackend_outputs _ _).2.2, hE]
    norm_num [chargeFromGrid_sample, sample_state]
  have hb : (updateFromBackend (sample 100 20 50 200 10 0) ⟨200, 80, 0⟩).state.battery
      = 100 := by
    rw [(updateFromBackend_outputs _ _).1, hB]
    norm_num [chargeFromGrid_sample, sample_state]
  refine ⟨h0, h10, hb, ?_⟩
  rw [h0, h10]
  norm_num

end GreenPulse
